import Mathlib

/-!
# x86v: CPU feature decoding and x86-64 level classification

A shallow embedding of `x86v.c` (the level classifier and its array list) and of
`is_x86_feat.hpp` (the feature table), followed by theorems about them.

Conventions of the embedding:

* `unsigned int` values are natural numbers; arithmetic that the C code performs on
  them is reduced modulo `2 ^ 32`, and `size_t` arithmetic modulo `2 ^ 64`.
* The `cpuid` instruction is a function from the leaf number to the four registers
  it returns.  The processor is a parameter of every function that issues `cpuid`.
* Functions that mutate a `struct tiny_alist` through a pointer take the structure
  and return the updated one.
-/

set_option maxRecDepth 8000
set_option synthInstance.maxHeartbeats 400000
set_option synthInstance.maxSize 4096

/-- Register values produced by one `cpuid` query (`struct CpuidRegisters`; in
`x86v.c` the four local variables `eax, ebx, ecx, edx`). -/
structure CpuidRegisters where
  eax : Nat
  ebx : Nat
  ecx : Nat
  edx : Nat
deriving DecidableEq

/-- The processor as seen through `__cpuid(level, eax, ebx, ecx, edx)`: the leaf
number determines the four registers. -/
abbrev Cpuid := Nat → CpuidRegisters

/-- Modulus of `unsigned int` arithmetic. -/
def UINT_MOD : Nat := 2 ^ 32

/-- Modulus of `size_t` arithmetic. -/
def SIZE_MOD : Nat := 2 ^ 64

/-- Value of `sizeof(char *)` on x86-64. -/
def SIZEOF_PTR : Nat := 8

namespace x86v

/-! ## `x86v.c`: the anonymous enum of bit positions -/

def FPU : Nat := 0
def CX8 : Nat := 8
def SCE : Nat := 11
def CMOV : Nat := 15
def MMX : Nat := 23
def FXSR : Nat := 24
def SSE : Nat := 25
def SSE2 : Nat := 26

def CMPXCHG16B : Nat := 13
def POPCNT : Nat := 23
def SSE3 : Nat := 0
def SSE4_1 : Nat := 19
def SSE4_2 : Nat := 20
def SSSE3 : Nat := 9
def LAHF_SAHF : Nat := 0

def AVX : Nat := 28
def AVX2 : Nat := 5
def BMI1 : Nat := 3
def BMI2 : Nat := 8
def F16C : Nat := 29
def FMA : Nat := 12
def LZCNT : Nat := 5
def MOVBE : Nat := 22
def OSXSAVE : Nat := 27

def AVX512F : Nat := 16
def AVX512BW : Nat := 30
def AVX512CD : Nat := 28
def AVX512DQ : Nat := 17
def AVX512VL : Nat := 31

/-! ## x86-64 CPU levels -/

def CPU_VERSION_LEVEL_v1 : Nat := 132
def CPU_VERSION_LEVEL_v2 : Nat := 84
def CPU_VERSION_LEVEL_v3 : Nat := 139
def CPU_VERSION_LEVEL_v4 : Nat := 122

/-- Bit value and display name of one CPU feature (`struct cpu_feat_bits`). -/
structure cpu_feat_bits where
  bit : Nat
  name : String
deriving DecidableEq

def cpu_feat_bits_v1 : List cpu_feat_bits :=
  [ { bit := FPU, name := "fpu" },
    { bit := CX8, name := "cx8" },
    { bit := SCE, name := "sce" },
    { bit := CMOV, name := "cmov" },
    { bit := MMX, name := "mmx" },
    { bit := FXSR, name := "fxsr" },
    { bit := SSE, name := "sse" },
    { bit := SSE2, name := "sse2" } ]

def cpu_feat_bits_v2 : List cpu_feat_bits :=
  [ { bit := CMPXCHG16B, name := "cmpxchg16b" },
    { bit := POPCNT, name := "popcnt" },
    { bit := SSE3, name := "sse3" },
    { bit := SSE4_1, name := "sse4.1" },
    { bit := SSE4_2, name := "sse4.2" },
    { bit := SSSE3, name := "ssse3" } ]

def cpu_feat_bits_v4 : List cpu_feat_bits :=
  [ { bit := AVX512F, name := "avx512-f" },
    { bit := AVX512BW, name := "avx512-bw" },
    { bit := AVX512CD, name := "avx512-cd" },
    { bit := AVX512DQ, name := "avx512-dq" },
    { bit := AVX512VL, name := "avx512-vl" } ]

/-! ## The array list -/

/-- The array list (`struct tiny_alist`).  The field `p` is the heap block the
pointer `p` designates, one entry per pointer-sized slot, `none` being a slot that
holds no element (zeroed by `calloc` or left indeterminate by `realloc`).  The
ghost field `alloc` records the byte size passed to the most recent `calloc` or
`realloc`; the C structure has no such member. -/
structure tiny_alist where
  p : List (Option String)
  alloc : Nat
  idx : Nat
  total_len : Nat
  extra_len : Nat
deriving DecidableEq

/-- The block returned by `calloc(1, size)`: `size / sizeof(char *)` zeroed slots. -/
def calloc_block (size : Nat) : List (Option String) :=
  List.replicate (size / SIZEOF_PTR) none

/-- The block returned by `realloc(p, size)`: the old contents up to the smaller of
the two sizes, then slots holding nothing.  Allocation is taken to succeed (on
failure the program exits through `err`). -/
def realloc_block (p : List (Option String)) (size : Nat) : List (Option String) :=
  p.take (size / SIZEOF_PTR) ++ List.replicate (size / SIZEOF_PTR - p.length) none

/-- The function `tiny_alist_do_init`. -/
def tiny_alist_do_init (_alist : tiny_alist) : tiny_alist :=
  { p := calloc_block SIZEOF_PTR, alloc := SIZEOF_PTR,
    idx := 0, total_len := 0, extra_len := 0 }

/-- The part of `tiny_alist_do_push_back` from the label `do_alloc` to the store:
the capacity bookkeeping, re-entered through `goto do_alloc`.  The first argument
bounds the number of passes through the label; `do_alloc_fuel` shows that two
passes always suffice. -/
def do_alloc : Nat → tiny_alist → tiny_alist
  | 0, a => a
  | fuel + 1, a =>
    let elem_len := SIZEOF_PTR
    if a.extra_len ≤ a.total_len then
      let extra_len := ((a.total_len + elem_len) * 2) % SIZE_MOD
      { a with extra_len := extra_len, p := realloc_block a.p extra_len, alloc := extra_len }
    else
      let a1 := { a with extra_len := (a.extra_len + SIZE_MOD - elem_len) % SIZE_MOD }
      if a1.extra_len ≤ a1.total_len then do_alloc fuel a1 else a1

/-- The function `tiny_alist_do_push_back`. -/
def tiny_alist_do_push_back (alist : tiny_alist) (elem : String) : tiny_alist :=
  let elem_len := SIZEOF_PTR
  let a := do_alloc 2 alist
  { a with p := a.p.set a.idx (some elem),
           idx := (a.idx + 1) % SIZE_MOD,
           total_len := (a.total_len + elem_len) % SIZE_MOD }

/-- The function `tiny_alist_do_reset`. -/
def tiny_alist_do_reset (alist : tiny_alist) : tiny_alist :=
  { alist with idx := 0, total_len := 0 }

/-- The elements an iteration over slots `0 .. idx - 1` visits, in order. -/
def tiny_alist.elems (a : tiny_alist) : List (Option String) :=
  a.p.take a.idx

/-! ## Feature test and level detection -/

/-- The function `cpu_has_feat`: `(reg & (1 << bit)) != 0` as an `int`.  The shift
is reduced to 32 bits. -/
def cpu_has_feat (reg bit : Nat) : Nat :=
  if reg &&& ((1 <<< bit) % UINT_MOD) ≠ 0 then 1 else 0

/-- The macro `CPU_FEAT_FOREACH(reg, level, alist, arr)`; `level` is an
`unsigned int`. -/
def CPU_FEAT_FOREACH (reg : Nat) (level : Nat) (alist : tiny_alist)
    (arr : List cpu_feat_bits) : tiny_alist × Nat :=
  arr.foldl
    (fun st f =>
      if cpu_has_feat reg f.bit ≠ 0 then
        (tiny_alist_do_push_back st.1 f.name, (st.2 + f.bit) % UINT_MOD)
      else st)
    (alist, level)

/-- The macro `CPU_FEAT_ADD_OK(reg, level, bit, alist)`; the pushed name is the
stringified macro argument `#bit`, passed here as `name`. -/
def CPU_FEAT_ADD_OK (reg : Nat) (level : Nat) (bit : Nat) (name : String)
    (alist : tiny_alist) : tiny_alist × Nat :=
  if cpu_has_feat reg bit ≠ 0 then
    (tiny_alist_do_push_back alist name, (level + bit) % UINT_MOD)
  else (alist, level)

/-- The body of `cpu_detect_version_level_v1` up to the `return`: the list after
the loop and the value of `level` (a `size_t`). -/
def cpu_detect_version_level_v1_sum (cpuid : Cpuid) (alist : tiny_alist) :
    tiny_alist × Nat :=
  let edx := (cpuid 1).edx
  cpu_feat_bits_v1.foldl
    (fun st f =>
      if cpu_has_feat edx f.bit ≠ 0 then
        (tiny_alist_do_push_back st.1 f.name, (st.2 + f.bit) % SIZE_MOD)
      else st)
    (alist, 0)

/-- The function `cpu_detect_version_level_v1`: the updated list and the returned
`int`. -/
def cpu_detect_version_level_v1 (cpuid : Cpuid) (alist : tiny_alist) :
    tiny_alist × Int :=
  let r := cpu_detect_version_level_v1_sum cpuid alist
  (r.1, if r.2 = CPU_VERSION_LEVEL_v1 then (CPU_VERSION_LEVEL_v1 : Int) else -1)

/-- The body of `cpu_detect_version_level_v2` up to the `return`. -/
def cpu_detect_version_level_v2_sum (cpuid : Cpuid) (alist : tiny_alist) :
    tiny_alist × Nat :=
  let ecx := (cpuid 1).ecx
  let r := CPU_FEAT_FOREACH ecx 0 alist cpu_feat_bits_v2
  let ecx := (cpuid 0x80000001).ecx
  if cpu_has_feat ecx LAHF_SAHF ≠ 0 then
    (r.1, (r.2 + LAHF_SAHF) % UINT_MOD)
  else r

/-- The function `cpu_detect_version_level_v2`. -/
def cpu_detect_version_level_v2 (cpuid : Cpuid) (alist : tiny_alist) :
    tiny_alist × Int :=
  let r := cpu_detect_version_level_v2_sum cpuid alist
  (r.1, if r.2 = CPU_VERSION_LEVEL_v2 then (CPU_VERSION_LEVEL_v2 : Int) else -1)

/-- The body of `cpu_detect_version_level_v3` up to the `return`. -/
def cpu_detect_version_level_v3_sum (cpuid : Cpuid) (alist : tiny_alist) :
    tiny_alist × Nat :=
  let ecx := (cpuid 1).ecx
  let r := CPU_FEAT_ADD_OK ecx 0 AVX "AVX" alist
  let r := CPU_FEAT_ADD_OK ecx r.2 F16C "F16C" r.1
  let r := CPU_FEAT_ADD_OK ecx r.2 FMA "FMA" r.1
  let r := CPU_FEAT_ADD_OK ecx r.2 MOVBE "MOVBE" r.1
  let r := CPU_FEAT_ADD_OK ecx r.2 OSXSAVE "OSXSAVE" r.1
  let ebx := (cpuid 7).ebx
  let r := CPU_FEAT_ADD_OK ebx r.2 AVX2 "AVX2" r.1
  let r := CPU_FEAT_ADD_OK ebx r.2 BMI1 "BMI1" r.1
  let r := CPU_FEAT_ADD_OK ebx r.2 BMI2 "BMI2" r.1
  let ecx := (cpuid 0x80000001).ecx
  CPU_FEAT_ADD_OK ecx r.2 LZCNT "LZCNT" r.1

/-- The function `cpu_detect_version_level_v3`. -/
def cpu_detect_version_level_v3 (cpuid : Cpuid) (alist : tiny_alist) :
    tiny_alist × Int :=
  let r := cpu_detect_version_level_v3_sum cpuid alist
  (r.1, if r.2 = CPU_VERSION_LEVEL_v3 then (CPU_VERSION_LEVEL_v3 : Int) else -1)

/-- The body of `cpu_detect_version_level_v4` up to the `return`. -/
def cpu_detect_version_level_v4_sum (cpuid : Cpuid) (alist : tiny_alist) :
    tiny_alist × Nat :=
  let ebx := (cpuid 7).ebx
  CPU_FEAT_FOREACH ebx 0 alist cpu_feat_bits_v4

/-- The function `cpu_detect_version_level_v4`. -/
def cpu_detect_version_level_v4 (cpuid : Cpuid) (alist : tiny_alist) :
    tiny_alist × Int :=
  let r := cpu_detect_version_level_v4_sum cpuid alist
  (r.1, if r.2 = CPU_VERSION_LEVEL_v4 then (CPU_VERSION_LEVEL_v4 : Int) else -1)

end x86v

/-! ## `is_x86_feat.hpp`: the feature table -/

/-! The enumerators of `enum Feature`, by value: the enumeration gives no explicit
values, so they number from 0 in declaration order. -/

namespace Feature

@[match_pattern] def FPU : Nat := 0
@[match_pattern] def VME : Nat := 1
@[match_pattern] def DE : Nat := 2
@[match_pattern] def PSE : Nat := 3
@[match_pattern] def TSC : Nat := 4
@[match_pattern] def MSR : Nat := 5
@[match_pattern] def PAE : Nat := 6
@[match_pattern] def MCE : Nat := 7
@[match_pattern] def CX8 : Nat := 8
@[match_pattern] def APIC : Nat := 9
@[match_pattern] def SEP : Nat := 10
@[match_pattern] def MTRR : Nat := 11
@[match_pattern] def PGE : Nat := 12
@[match_pattern] def MCA : Nat := 13
@[match_pattern] def CMOV : Nat := 14
@[match_pattern] def PAT : Nat := 15
@[match_pattern] def PSE36 : Nat := 16
@[match_pattern] def PSN : Nat := 17
@[match_pattern] def CLFSH : Nat := 18
@[match_pattern] def DS : Nat := 19
@[match_pattern] def ACPI : Nat := 20
@[match_pattern] def MMX : Nat := 21
@[match_pattern] def FXSR : Nat := 22
@[match_pattern] def SSE : Nat := 23
@[match_pattern] def SSE2 : Nat := 24
@[match_pattern] def SS : Nat := 25
@[match_pattern] def HTT : Nat := 26
@[match_pattern] def TM : Nat := 27
@[match_pattern] def IA64 : Nat := 28
@[match_pattern] def PBE : Nat := 29
@[match_pattern] def SSE3 : Nat := 30
@[match_pattern] def PCLMULQDQ : Nat := 31
@[match_pattern] def DTES64 : Nat := 32
@[match_pattern] def MONITOR : Nat := 33
@[match_pattern] def DS_CPL : Nat := 34
@[match_pattern] def VMX : Nat := 35
@[match_pattern] def SMX : Nat := 36
@[match_pattern] def EST : Nat := 37
@[match_pattern] def TM2 : Nat := 38
@[match_pattern] def SSSE3 : Nat := 39
@[match_pattern] def CNXT_ID : Nat := 40
@[match_pattern] def SDBG : Nat := 41
@[match_pattern] def FMA : Nat := 42
@[match_pattern] def CX16 : Nat := 43
@[match_pattern] def XTPR : Nat := 44
@[match_pattern] def PDCM : Nat := 45
@[match_pattern] def PCID : Nat := 46
@[match_pattern] def DCA : Nat := 47
@[match_pattern] def SSE41 : Nat := 48
@[match_pattern] def SSE42 : Nat := 49
@[match_pattern] def X2APIC : Nat := 50
@[match_pattern] def MOVBE : Nat := 51
@[match_pattern] def POPCNT : Nat := 52
@[match_pattern] def TSC_DEADLINE : Nat := 53
@[match_pattern] def AES_NI : Nat := 54
@[match_pattern] def XSAVE : Nat := 55
@[match_pattern] def OSXSAVE : Nat := 56
@[match_pattern] def AVX : Nat := 57
@[match_pattern] def F16C : Nat := 58
@[match_pattern] def RDRND : Nat := 59
@[match_pattern] def HYPERVISOR : Nat := 60
@[match_pattern] def DTS : Nat := 61
@[match_pattern] def ARAT : Nat := 62
@[match_pattern] def PLN : Nat := 63
@[match_pattern] def ECMD : Nat := 64
@[match_pattern] def PTM : Nat := 65
@[match_pattern] def FSGSBASE : Nat := 66
@[match_pattern] def SGX : Nat := 67
@[match_pattern] def BMI1 : Nat := 68
@[match_pattern] def HLE : Nat := 69
@[match_pattern] def AVX2 : Nat := 70
@[match_pattern] def FDP_EXCPTN_ONLY : Nat := 71
@[match_pattern] def SMEP : Nat := 72
@[match_pattern] def BMI2 : Nat := 73
@[match_pattern] def ERMS : Nat := 74
@[match_pattern] def INVPCID : Nat := 75
@[match_pattern] def RTM : Nat := 76
@[match_pattern] def PQM : Nat := 77
@[match_pattern] def RDT_M : Nat := 78
@[match_pattern] def MPX : Nat := 79
@[match_pattern] def RDT_A : Nat := 80
@[match_pattern] def AVX512F : Nat := 81
@[match_pattern] def AVX512DQ : Nat := 82
@[match_pattern] def RDSEED : Nat := 83
@[match_pattern] def ADX : Nat := 84
@[match_pattern] def SMAP : Nat := 85
@[match_pattern] def AVX512IFMA : Nat := 86
@[match_pattern] def CLFLUSHOPT : Nat := 87
@[match_pattern] def CLWB : Nat := 88
@[match_pattern] def PT : Nat := 89
@[match_pattern] def AVX512PF : Nat := 90
@[match_pattern] def AVX512ER : Nat := 91
@[match_pattern] def AVX512CD : Nat := 92
@[match_pattern] def SHA : Nat := 93
@[match_pattern] def AVX512BW : Nat := 94
@[match_pattern] def AVX512VL : Nat := 95
@[match_pattern] def PREFETCHWT1 : Nat := 96
@[match_pattern] def AVX512VBMI : Nat := 97
@[match_pattern] def UMIP : Nat := 98
@[match_pattern] def PKU : Nat := 99
@[match_pattern] def OSPKE : Nat := 100
@[match_pattern] def WAITPKG : Nat := 101
@[match_pattern] def AVX512VBMI2 : Nat := 102
@[match_pattern] def CET_SS : Nat := 103
@[match_pattern] def GFNI : Nat := 104
@[match_pattern] def VAES : Nat := 105
@[match_pattern] def VPCLMULQDQ : Nat := 106
@[match_pattern] def AVX512VNNI : Nat := 107
@[match_pattern] def AVX512BITALG : Nat := 108
@[match_pattern] def TME_EN : Nat := 109
@[match_pattern] def AVX512VPOPCNTDQ : Nat := 110
@[match_pattern] def LA57 : Nat := 111
@[match_pattern] def MAWAU : Nat := 112
@[match_pattern] def RDPID : Nat := 113
@[match_pattern] def KL : Nat := 114
@[match_pattern] def BUS_LOCK_DETECT : Nat := 115
@[match_pattern] def CLDEMOTE : Nat := 116
@[match_pattern] def MOVDIRI : Nat := 117
@[match_pattern] def MOVDIR64B : Nat := 118
@[match_pattern] def ENQCMD : Nat := 119
@[match_pattern] def SGX_LC : Nat := 120
@[match_pattern] def PKS : Nat := 121

end Feature

/-- The object `struct IsX86Feat`: the array `regs[3]` of register snapshots. -/
structure IsX86Feat where
  regs : Fin 3 → CpuidRegisters

namespace IsX86Feat

def IDX0 : Fin 3 := 0
def IDX1 : Fin 3 := 1
def IDX2 : Fin 3 := 2

/-- The member function `check`: `(reg & (1 << bit)) != 0`, the shift reduced to 32
bits. -/
def check (reg bit : Nat) : Bool :=
  reg &&& ((1 <<< bit) % UINT_MOD) != 0

/-- The constructor `IsX86Feat()`: the snapshots of leaves 1, 6 and 7. -/
def new (cpuid : Cpuid) : IsX86Feat :=
  { regs := fun i => if i = IDX0 then cpuid 1 else if i = IDX1 then cpuid 6 else cpuid 7 }

/-- The member function `is_vendor_intel`, which queries leaf 0. -/
def is_vendor_intel (cpuid : Cpuid) : Bool :=
  let r := cpuid 0
  r.ebx == 0x756e6547 && r.edx == 0x49656e69 && r.ecx == 0x6c65746e

/-- The member function `is_vendor_amd`. -/
def is_vendor_amd (cpuid : Cpuid) : Bool :=
  !is_vendor_intel cpuid

/-- The member function `has`.  The argument is the value of the `Feature` passed,
which a cast can make any integer; `none` is the `default:` branch, where the
program aborts. -/
def has (self : IsX86Feat) (cpuid : Cpuid) (type : Nat) : Option Bool :=
  match type with
  | Feature.FPU => some (check (self.regs IDX0).edx 0)
  | Feature.VME => some (check (self.regs IDX0).edx 1)
  | Feature.DE => some (check (self.regs IDX0).edx 2)
  | Feature.PSE => some (check (self.regs IDX0).edx 3)
  | Feature.TSC => some (check (self.regs IDX0).edx 4)
  | Feature.MSR => some (check (self.regs IDX0).edx 5)
  | Feature.PAE => some (check (self.regs IDX0).edx 6)
  | Feature.MCE => some (check (self.regs IDX0).edx 7)
  | Feature.CX8 => some (check (self.regs IDX0).edx 8)
  | Feature.APIC => some (check (self.regs IDX0).edx 9)
  | Feature.SEP => some (check (self.regs IDX0).edx 11)
  | Feature.MTRR => some (check (self.regs IDX0).edx 12)
  | Feature.PGE => some (check (self.regs IDX0).edx 13)
  | Feature.MCA => some (check (self.regs IDX0).edx 14)
  | Feature.CMOV => some (check (self.regs IDX0).edx 15)
  | Feature.PAT => some (check (self.regs IDX0).edx 16)
  | Feature.PSE36 => some (check (self.regs IDX0).edx 17)
  | Feature.CLFSH => some (check (self.regs IDX0).edx 19)
  | Feature.DS => some (check (self.regs IDX0).edx 21)
  | Feature.ACPI => some (check (self.regs IDX0).edx 22)
  | Feature.MMX => some (check (self.regs IDX0).edx 23)
  | Feature.FXSR => some (check (self.regs IDX0).edx 24)
  | Feature.SSE => some (check (self.regs IDX0).edx 25)
  | Feature.SSE2 => some (check (self.regs IDX0).edx 26)
  | Feature.SS => some (check (self.regs IDX0).edx 27)
  | Feature.HTT => some (check (self.regs IDX0).edx 28)
  | Feature.TM => some (check (self.regs IDX0).edx 29)
  | Feature.IA64 => some (check (self.regs IDX0).edx 30)
  | Feature.PBE => some (check (self.regs IDX0).edx 31)
  | Feature.PSN =>
    some (if is_vendor_intel cpuid then check (self.regs IDX0).edx 18 else false)
  | Feature.SSE3 => some (check (self.regs IDX0).ecx 0)
  | Feature.PCLMULQDQ => some (check (self.regs IDX0).ecx 1)
  | Feature.DTES64 => some (check (self.regs IDX0).ecx 2)
  | Feature.MONITOR => some (check (self.regs IDX0).ecx 3)
  | Feature.DS_CPL => some (check (self.regs IDX0).ecx 4)
  | Feature.VMX => some (check (self.regs IDX0).ecx 5)
  | Feature.SMX => some (check (self.regs IDX0).ecx 6)
  | Feature.EST => some (check (self.regs IDX0).ecx 7)
  | Feature.TM2 => some (check (self.regs IDX0).ecx 8)
  | Feature.SSSE3 => some (check (self.regs IDX0).ecx 9)
  | Feature.CNXT_ID => some (check (self.regs IDX0).ecx 10)
  | Feature.SDBG => some (check (self.regs IDX0).ecx 11)
  | Feature.FMA => some (check (self.regs IDX0).ecx 12)
  | Feature.CX16 => some (check (self.regs IDX0).ecx 13)
  | Feature.XTPR => some (check (self.regs IDX0).ecx 14)
  | Feature.PDCM => some (check (self.regs IDX0).ecx 15)
  | Feature.PCID => some (check (self.regs IDX0).ecx 17)
  | Feature.DCA => some (check (self.regs IDX0).ecx 18)
  | Feature.SSE41 => some (check (self.regs IDX0).ecx 19)
  | Feature.SSE42 => some (check (self.regs IDX0).ecx 20)
  | Feature.X2APIC => some (check (self.regs IDX0).ecx 21)
  | Feature.MOVBE => some (check (self.regs IDX0).ecx 22)
  | Feature.POPCNT => some (check (self.regs IDX0).ecx 23)
  | Feature.TSC_DEADLINE => some (check (self.regs IDX0).ecx 24)
  | Feature.AES_NI => some (check (self.regs IDX0).ecx 25)
  | Feature.XSAVE => some (check (self.regs IDX0).ecx 26)
  | Feature.OSXSAVE => some (check (self.regs IDX0).ecx 27)
  | Feature.AVX => some (check (self.regs IDX0).ecx 28)
  | Feature.F16C => some (check (self.regs IDX0).ecx 29)
  | Feature.RDRND => some (check (self.regs IDX0).ecx 30)
  | Feature.HYPERVISOR => some (check (self.regs IDX0).ecx 31)
  | Feature.DTS => some (check (self.regs IDX1).eax 0)
  | Feature.ARAT => some (check (self.regs IDX1).eax 2)
  | Feature.PLN => some (check (self.regs IDX1).eax 4)
  | Feature.ECMD => some (check (self.regs IDX1).eax 5)
  | Feature.PTM => some (check (self.regs IDX1).eax 6)
  | Feature.FSGSBASE => some (check (self.regs IDX2).ebx 0)
  | Feature.SGX => some (check (self.regs IDX2).ebx 2)
  | Feature.BMI1 => some (check (self.regs IDX2).ebx 3)
  | Feature.HLE => some (check (self.regs IDX2).ebx 4)
  | Feature.AVX2 => some (check (self.regs IDX2).ebx 5)
  | Feature.FDP_EXCPTN_ONLY => some (check (self.regs IDX2).ebx 6)
  | Feature.SMEP => some (check (self.regs IDX2).ebx 7)
  | Feature.BMI2 => some (check (self.regs IDX2).ebx 8)
  | Feature.ERMS => some (check (self.regs IDX2).ebx 9)
  | Feature.INVPCID => some (check (self.regs IDX2).ebx 10)
  | Feature.RTM => some (check (self.regs IDX2).ebx 11)
  | Feature.PQM | Feature.RDT_M => some (check (self.regs IDX2).ebx 12)
  | Feature.MPX =>
    some (if is_vendor_intel cpuid then check (self.regs IDX2).ebx 14 else false)
  | Feature.RDT_A => some (check (self.regs IDX2).ebx 15)
  | Feature.AVX512F => some (check (self.regs IDX2).ebx 16)
  | Feature.AVX512DQ => some (check (self.regs IDX2).ebx 17)
  | Feature.RDSEED => some (check (self.regs IDX2).ebx 18)
  | Feature.ADX =>
    some (if is_vendor_intel cpuid then check (self.regs IDX2).ebx 19 else false)
  | Feature.SMAP => some (check (self.regs IDX2).ebx 20)
  | Feature.AVX512IFMA => some (check (self.regs IDX2).ebx 21)
  | Feature.CLFLUSHOPT => some (check (self.regs IDX2).ebx 23)
  | Feature.CLWB => some (check (self.regs IDX2).ebx 24)
  | Feature.PT =>
    some (if is_vendor_intel cpuid then check (self.regs IDX2).ebx 25 else false)
  | Feature.AVX512PF => some (check (self.regs IDX2).ebx 26)
  | Feature.AVX512ER => some (check (self.regs IDX2).ebx 27)
  | Feature.AVX512CD => some (check (self.regs IDX2).ebx 28)
  | Feature.SHA => some (check (self.regs IDX2).ebx 29)
  | Feature.AVX512BW => some (check (self.regs IDX2).ebx 30)
  | Feature.AVX512VL => some (check (self.regs IDX2).ebx 31)
  | Feature.PREFETCHWT1 => some (check (self.regs IDX2).ecx 0)
  | Feature.AVX512VBMI => some (check (self.regs IDX2).ecx 1)
  | Feature.UMIP => some (check (self.regs IDX2).ecx 2)
  | Feature.PKU => some (check (self.regs IDX2).ecx 3)
  | Feature.OSPKE => some (check (self.regs IDX2).ecx 4)
  | Feature.WAITPKG => some (check (self.regs IDX2).ecx 5)
  | Feature.AVX512VBMI2 => some (check (self.regs IDX2).ecx 6)
  | Feature.CET_SS => some (check (self.regs IDX2).ecx 7)
  | Feature.GFNI => some (check (self.regs IDX2).ecx 8)
  | Feature.VAES => some (check (self.regs IDX2).ecx 9)
  | Feature.VPCLMULQDQ => some (check (self.regs IDX2).ecx 10)
  | Feature.AVX512VNNI => some (check (self.regs IDX2).ecx 11)
  | Feature.AVX512BITALG => some (check (self.regs IDX2).ecx 12)
  | Feature.TME_EN => some (check (self.regs IDX2).ecx 13)
  | Feature.AVX512VPOPCNTDQ => some (check (self.regs IDX2).ecx 14)
  | Feature.LA57 => some (check (self.regs IDX2).ecx 16)
  | Feature.MAWAU =>
    some (if is_vendor_intel cpuid then check (self.regs IDX2).ecx 17 else false)
  | Feature.RDPID => some (check (self.regs IDX2).ecx 22)
  | Feature.KL => some (check (self.regs IDX2).ecx 23)
  | Feature.BUS_LOCK_DETECT => some (check (self.regs IDX2).ecx 24)
  | Feature.CLDEMOTE => some (check (self.regs IDX2).ecx 25)
  | Feature.MOVDIRI => some (check (self.regs IDX2).ecx 27)
  | Feature.MOVDIR64B => some (check (self.regs IDX2).ecx 28)
  | Feature.ENQCMD => some (check (self.regs IDX2).ecx 29)
  | Feature.SGX_LC =>
    some (if is_vendor_intel cpuid then check (self.regs IDX2).ecx 30 else false)
  | Feature.PKS => some (check (self.regs IDX2).ecx 31)
  | _ => none

end IsX86Feat

/-! ## Auxiliary definitions used in the statements -/

namespace x86v

/-- Well-formed list states: `total_len` counts `idx` pointers, `extra_len` is a
multiple of the pointer size within the allocated size, the elements lie inside the
block, and the block has one slot per pointer of its allocated size. -/
def tiny_alist.wf (a : tiny_alist) : Prop :=
  a.total_len = SIZEOF_PTR * a.idx ∧
  SIZEOF_PTR ∣ a.extra_len ∧
  a.extra_len ≤ a.alloc ∧
  a.total_len ≤ a.alloc ∧
  a.alloc < SIZE_MOD ∧
  a.p.length = a.alloc / SIZEOF_PTR

instance (a : tiny_alist) : Decidable a.wf := by
  unfold tiny_alist.wf; infer_instance

/-- Pushing a sequence of names, first to last. -/
def push_all (a : tiny_alist) (names : List String) : tiny_alist :=
  names.foldl tiny_alist_do_push_back a

/-- The tests of `cpu_detect_version_level_v3` in program order: the register
value tested, the bit position and the name pushed. -/
def v3_tests (cpuid : Cpuid) : List (Nat × cpu_feat_bits) :=
  [ ((cpuid 1).ecx, { bit := AVX, name := "AVX" }),
    ((cpuid 1).ecx, { bit := F16C, name := "F16C" }),
    ((cpuid 1).ecx, { bit := FMA, name := "FMA" }),
    ((cpuid 1).ecx, { bit := MOVBE, name := "MOVBE" }),
    ((cpuid 1).ecx, { bit := OSXSAVE, name := "OSXSAVE" }),
    ((cpuid 7).ebx, { bit := AVX2, name := "AVX2" }),
    ((cpuid 7).ebx, { bit := BMI1, name := "BMI1" }),
    ((cpuid 7).ebx, { bit := BMI2, name := "BMI2" }),
    ((cpuid 0x80000001).ecx, { bit := LZCNT, name := "LZCNT" }) ]

/-- A processor given by its leaves 1, 7 and 0x80000001; every other leaf reads as
zero. -/
def cpuid_of (leaf1 leaf7 leaf_ext : CpuidRegisters) : Cpuid :=
  fun leaf =>
    if leaf = 1 then leaf1
    else if leaf = 7 then leaf7
    else if leaf = 0x80000001 then leaf_ext
    else ⟨0, 0, 0, 0⟩

/-- A processor on which every bit of every register of every leaf is set. -/
def cpuid_all_set : Cpuid :=
  fun _ => ⟨0xFFFFFFFF, 0xFFFFFFFF, 0xFFFFFFFF, 0xFFFFFFFF⟩

/-- The list as `main` passes it to `cpu_print_version_levels`: freshly
initialised. -/
def alist_fresh : tiny_alist :=
  tiny_alist_do_init ⟨[], 0, 0, 0, 0⟩

/-- The register value in which exactly the eight v1 feature bits are set. -/
def V1_EDX : Nat := 2 ^ 0 + 2 ^ 8 + 2 ^ 11 + 2 ^ 15 + 2 ^ 23 + 2 ^ 24 + 2 ^ 25 + 2 ^ 26

/-- The leaf-1 ECX value in which exactly the six v2 table bits are set. -/
def V2_ECX : Nat := 2 ^ 13 + 2 ^ 23 + 2 ^ 0 + 2 ^ 19 + 2 ^ 20 + 2 ^ 9

end x86v

/-- Selector of one of the four registers of a snapshot. -/
inductive Reg where
  | eax | ebx | ecx | edx
deriving DecidableEq

/-- The register of a snapshot that a selector designates. -/
def CpuidRegisters.get (r : CpuidRegisters) : Reg → Nat
  | Reg.eax => r.eax
  | Reg.ebx => r.ebx
  | Reg.ecx => r.ecx
  | Reg.edx => r.edx

namespace IsX86Feat

/-- Where `has` reads a feature: the index into `regs`, the register, the bit
position, and whether the answer is gated by `is_vendor_intel`. -/
structure FeatureLocation where
  idx : Fin 3
  reg : Reg
  bit : Nat
  intel_only : Bool
deriving DecidableEq

/-- The location each `case` of the switch in `has` reads, listed by the value of
the enumerator the `case` names. -/
def location_table : List FeatureLocation :=
  [
    FeatureLocation.mk IDX0 Reg.edx 0 false, -- FPU
    FeatureLocation.mk IDX0 Reg.edx 1 false, -- VME
    FeatureLocation.mk IDX0 Reg.edx 2 false, -- DE
    FeatureLocation.mk IDX0 Reg.edx 3 false, -- PSE
    FeatureLocation.mk IDX0 Reg.edx 4 false, -- TSC
    FeatureLocation.mk IDX0 Reg.edx 5 false, -- MSR
    FeatureLocation.mk IDX0 Reg.edx 6 false, -- PAE
    FeatureLocation.mk IDX0 Reg.edx 7 false, -- MCE
    FeatureLocation.mk IDX0 Reg.edx 8 false, -- CX8
    FeatureLocation.mk IDX0 Reg.edx 9 false, -- APIC
    FeatureLocation.mk IDX0 Reg.edx 11 false, -- SEP
    FeatureLocation.mk IDX0 Reg.edx 12 false, -- MTRR
    FeatureLocation.mk IDX0 Reg.edx 13 false, -- PGE
    FeatureLocation.mk IDX0 Reg.edx 14 false, -- MCA
    FeatureLocation.mk IDX0 Reg.edx 15 false, -- CMOV
    FeatureLocation.mk IDX0 Reg.edx 16 false, -- PAT
    FeatureLocation.mk IDX0 Reg.edx 17 false, -- PSE36
    FeatureLocation.mk IDX0 Reg.edx 18 true, -- PSN
    FeatureLocation.mk IDX0 Reg.edx 19 false, -- CLFSH
    FeatureLocation.mk IDX0 Reg.edx 21 false, -- DS
    FeatureLocation.mk IDX0 Reg.edx 22 false, -- ACPI
    FeatureLocation.mk IDX0 Reg.edx 23 false, -- MMX
    FeatureLocation.mk IDX0 Reg.edx 24 false, -- FXSR
    FeatureLocation.mk IDX0 Reg.edx 25 false, -- SSE
    FeatureLocation.mk IDX0 Reg.edx 26 false, -- SSE2
    FeatureLocation.mk IDX0 Reg.edx 27 false, -- SS
    FeatureLocation.mk IDX0 Reg.edx 28 false, -- HTT
    FeatureLocation.mk IDX0 Reg.edx 29 false, -- TM
    FeatureLocation.mk IDX0 Reg.edx 30 false, -- IA64
    FeatureLocation.mk IDX0 Reg.edx 31 false, -- PBE
    FeatureLocation.mk IDX0 Reg.ecx 0 false, -- SSE3
    FeatureLocation.mk IDX0 Reg.ecx 1 false, -- PCLMULQDQ
    FeatureLocation.mk IDX0 Reg.ecx 2 false, -- DTES64
    FeatureLocation.mk IDX0 Reg.ecx 3 false, -- MONITOR
    FeatureLocation.mk IDX0 Reg.ecx 4 false, -- DS_CPL
    FeatureLocation.mk IDX0 Reg.ecx 5 false, -- VMX
    FeatureLocation.mk IDX0 Reg.ecx 6 false, -- SMX
    FeatureLocation.mk IDX0 Reg.ecx 7 false, -- EST
    FeatureLocation.mk IDX0 Reg.ecx 8 false, -- TM2
    FeatureLocation.mk IDX0 Reg.ecx 9 false, -- SSSE3
    FeatureLocation.mk IDX0 Reg.ecx 10 false, -- CNXT_ID
    FeatureLocation.mk IDX0 Reg.ecx 11 false, -- SDBG
    FeatureLocation.mk IDX0 Reg.ecx 12 false, -- FMA
    FeatureLocation.mk IDX0 Reg.ecx 13 false, -- CX16
    FeatureLocation.mk IDX0 Reg.ecx 14 false, -- XTPR
    FeatureLocation.mk IDX0 Reg.ecx 15 false, -- PDCM
    FeatureLocation.mk IDX0 Reg.ecx 17 false, -- PCID
    FeatureLocation.mk IDX0 Reg.ecx 18 false, -- DCA
    FeatureLocation.mk IDX0 Reg.ecx 19 false, -- SSE41
    FeatureLocation.mk IDX0 Reg.ecx 20 false, -- SSE42
    FeatureLocation.mk IDX0 Reg.ecx 21 false, -- X2APIC
    FeatureLocation.mk IDX0 Reg.ecx 22 false, -- MOVBE
    FeatureLocation.mk IDX0 Reg.ecx 23 false, -- POPCNT
    FeatureLocation.mk IDX0 Reg.ecx 24 false, -- TSC_DEADLINE
    FeatureLocation.mk IDX0 Reg.ecx 25 false, -- AES_NI
    FeatureLocation.mk IDX0 Reg.ecx 26 false, -- XSAVE
    FeatureLocation.mk IDX0 Reg.ecx 27 false, -- OSXSAVE
    FeatureLocation.mk IDX0 Reg.ecx 28 false, -- AVX
    FeatureLocation.mk IDX0 Reg.ecx 29 false, -- F16C
    FeatureLocation.mk IDX0 Reg.ecx 30 false, -- RDRND
    FeatureLocation.mk IDX0 Reg.ecx 31 false, -- HYPERVISOR
    FeatureLocation.mk IDX1 Reg.eax 0 false, -- DTS
    FeatureLocation.mk IDX1 Reg.eax 2 false, -- ARAT
    FeatureLocation.mk IDX1 Reg.eax 4 false, -- PLN
    FeatureLocation.mk IDX1 Reg.eax 5 false, -- ECMD
    FeatureLocation.mk IDX1 Reg.eax 6 false, -- PTM
    FeatureLocation.mk IDX2 Reg.ebx 0 false, -- FSGSBASE
    FeatureLocation.mk IDX2 Reg.ebx 2 false, -- SGX
    FeatureLocation.mk IDX2 Reg.ebx 3 false, -- BMI1
    FeatureLocation.mk IDX2 Reg.ebx 4 false, -- HLE
    FeatureLocation.mk IDX2 Reg.ebx 5 false, -- AVX2
    FeatureLocation.mk IDX2 Reg.ebx 6 false, -- FDP_EXCPTN_ONLY
    FeatureLocation.mk IDX2 Reg.ebx 7 false, -- SMEP
    FeatureLocation.mk IDX2 Reg.ebx 8 false, -- BMI2
    FeatureLocation.mk IDX2 Reg.ebx 9 false, -- ERMS
    FeatureLocation.mk IDX2 Reg.ebx 10 false, -- INVPCID
    FeatureLocation.mk IDX2 Reg.ebx 11 false, -- RTM
    FeatureLocation.mk IDX2 Reg.ebx 12 false, -- PQM
    FeatureLocation.mk IDX2 Reg.ebx 12 false, -- RDT_M
    FeatureLocation.mk IDX2 Reg.ebx 14 true, -- MPX
    FeatureLocation.mk IDX2 Reg.ebx 15 false, -- RDT_A
    FeatureLocation.mk IDX2 Reg.ebx 16 false, -- AVX512F
    FeatureLocation.mk IDX2 Reg.ebx 17 false, -- AVX512DQ
    FeatureLocation.mk IDX2 Reg.ebx 18 false, -- RDSEED
    FeatureLocation.mk IDX2 Reg.ebx 19 true, -- ADX
    FeatureLocation.mk IDX2 Reg.ebx 20 false, -- SMAP
    FeatureLocation.mk IDX2 Reg.ebx 21 false, -- AVX512IFMA
    FeatureLocation.mk IDX2 Reg.ebx 23 false, -- CLFLUSHOPT
    FeatureLocation.mk IDX2 Reg.ebx 24 false, -- CLWB
    FeatureLocation.mk IDX2 Reg.ebx 25 true, -- PT
    FeatureLocation.mk IDX2 Reg.ebx 26 false, -- AVX512PF
    FeatureLocation.mk IDX2 Reg.ebx 27 false, -- AVX512ER
    FeatureLocation.mk IDX2 Reg.ebx 28 false, -- AVX512CD
    FeatureLocation.mk IDX2 Reg.ebx 29 false, -- SHA
    FeatureLocation.mk IDX2 Reg.ebx 30 false, -- AVX512BW
    FeatureLocation.mk IDX2 Reg.ebx 31 false, -- AVX512VL
    FeatureLocation.mk IDX2 Reg.ecx 0 false, -- PREFETCHWT1
    FeatureLocation.mk IDX2 Reg.ecx 1 false, -- AVX512VBMI
    FeatureLocation.mk IDX2 Reg.ecx 2 false, -- UMIP
    FeatureLocation.mk IDX2 Reg.ecx 3 false, -- PKU
    FeatureLocation.mk IDX2 Reg.ecx 4 false, -- OSPKE
    FeatureLocation.mk IDX2 Reg.ecx 5 false, -- WAITPKG
    FeatureLocation.mk IDX2 Reg.ecx 6 false, -- AVX512VBMI2
    FeatureLocation.mk IDX2 Reg.ecx 7 false, -- CET_SS
    FeatureLocation.mk IDX2 Reg.ecx 8 false, -- GFNI
    FeatureLocation.mk IDX2 Reg.ecx 9 false, -- VAES
    FeatureLocation.mk IDX2 Reg.ecx 10 false, -- VPCLMULQDQ
    FeatureLocation.mk IDX2 Reg.ecx 11 false, -- AVX512VNNI
    FeatureLocation.mk IDX2 Reg.ecx 12 false, -- AVX512BITALG
    FeatureLocation.mk IDX2 Reg.ecx 13 false, -- TME_EN
    FeatureLocation.mk IDX2 Reg.ecx 14 false, -- AVX512VPOPCNTDQ
    FeatureLocation.mk IDX2 Reg.ecx 16 false, -- LA57
    FeatureLocation.mk IDX2 Reg.ecx 17 true, -- MAWAU
    FeatureLocation.mk IDX2 Reg.ecx 22 false, -- RDPID
    FeatureLocation.mk IDX2 Reg.ecx 23 false, -- KL
    FeatureLocation.mk IDX2 Reg.ecx 24 false, -- BUS_LOCK_DETECT
    FeatureLocation.mk IDX2 Reg.ecx 25 false, -- CLDEMOTE
    FeatureLocation.mk IDX2 Reg.ecx 27 false, -- MOVDIRI
    FeatureLocation.mk IDX2 Reg.ecx 28 false, -- MOVDIR64B
    FeatureLocation.mk IDX2 Reg.ecx 29 false, -- ENQCMD
    FeatureLocation.mk IDX2 Reg.ecx 30 true, -- SGX_LC
    FeatureLocation.mk IDX2 Reg.ecx 31 false ] -- PKS

/-- The location `has` reads for a value of `Feature`, `none` for a value without a
`case`. -/
def location (type : Nat) : Option FeatureLocation :=
  location_table.get? type

/-- The answer read at a location. -/
def FeatureLocation.eval (loc : FeatureLocation) (self : IsX86Feat) (cpuid : Cpuid) : Bool :=
  if loc.intel_only then
    (if is_vendor_intel cpuid then check ((self.regs loc.idx).get loc.reg) loc.bit else false)
  else check ((self.regs loc.idx).get loc.reg) loc.bit


/-- The snapshot object in which the only bit set is bit `b` of register `r` of
`regs[i]`. -/
def snapshot_bit (i : Fin 3) (r : Reg) (b : Nat) : IsX86Feat :=
  { regs := fun j =>
      if j = i then
        match r with
        | Reg.eax => ⟨2 ^ b, 0, 0, 0⟩
        | Reg.ebx => ⟨0, 2 ^ b, 0, 0⟩
        | Reg.ecx => ⟨0, 0, 2 ^ b, 0⟩
        | Reg.edx => ⟨0, 0, 0, 2 ^ b⟩
      else ⟨0, 0, 0, 0⟩ }

/-- A processor whose leaf 0 carries the vendor string of Intel. -/
def cpuid_intel : Cpuid :=
  fun leaf => if leaf = 0 then ⟨0x16, 0x756e6547, 0x6c65746e, 0x49656e69⟩ else ⟨0, 0, 0, 0⟩

/-- A processor whose leaf 0 carries the vendor string of AMD (`AuthenticAMD`). -/
def cpuid_amd : Cpuid :=
  fun leaf => if leaf = 0 then ⟨0x10, 0x68747541, 0x444d4163, 0x69746e65⟩ else ⟨0, 0, 0, 0⟩

/-- The four bytes of a 32-bit register value, least significant first. -/
def le_bytes (r : Nat) : List Nat :=
  [r % 256, r / 256 % 256, r / 65536 % 256, r / 16777216 % 256]

/-- The twelve bytes read from leaf 0 in the order EBX, EDX, ECX, each register in
little-endian byte order. -/
def vendor_bytes (r : CpuidRegisters) : List Nat :=
  le_bytes r.ebx ++ le_bytes r.edx ++ le_bytes r.ecx

/-- The ASCII codes of the string `GenuineIntel`. -/
def GENUINE_INTEL : List Nat :=
  ['G', 'e', 'n', 'u', 'i', 'n', 'e', 'I', 'n', 't', 'e', 'l'].map Char.toNat

end IsX86Feat

/-! ## `x86v.c`: lowercase conversion, printing and `main` -/

namespace x86v

/-- The character that terminates a C string. -/
def NUL : Char := Char.ofNat 0

/-- The space character. -/
def SPACE : Char := Char.ofNat 32

/-- The library function `tolower` in the "C" locale (the program never calls
`setlocale`): an uppercase ASCII letter maps to its lowercase letter and every
other character to itself. -/
def tolower (c : Char) : Char :=
  if 'A' ≤ c ∧ c ≤ 'Z' then Char.ofNat (c.toNat + 32) else c

/-- The string a `char` object holds: the characters before its first `NUL`. -/
def cstring (s : List Char) : List Char :=
  s.takeWhile (fun c => c != NUL)

/-- The library function `strdup`, taken to succeed: a new object holding the
characters of the string and the terminator. -/
def strdup (s : List Char) : List Char :=
  cstring s ++ [NUL]

/-- The loop of `conv_to_lowercase`: the first argument is the object from `s` on,
the second the offset of `a` into `dup`.  An object without a terminator ends the
loop where the object ends (in C the read past it is undefined). -/
def conv_to_lowercase_loop : List Char → Nat → List Char → List Char
  | [], _, dup => dup
  | c :: s, a, dup =>
    if c = NUL then dup else conv_to_lowercase_loop s (a + 1) (dup.set a (tolower c))

/-- The function `conv_to_lowercase`; the argument is the object `s` points to. -/
def conv_to_lowercase (s : List Char) : List Char :=
  conv_to_lowercase_loop s 0 (strdup s)

/-- The object a feature name designates: its characters and the terminator. -/
def string_object (name : String) : List Char :=
  name.toList ++ [NUL]

/-- The bytes `fprintf(stdout, "%s%c", p, c)` writes. -/
def fprintf_s_c (p : List Char) (c : Char) : List Char :=
  cstring p ++ [c]

/-- The loop of the macro `CPU_TINY_ALIST_PRINT_FOREACH`: the first number counts
the iterations left, the second is `i`.  The result is the text written, or `none`
when `alist->p[i]` lies outside the block or holds no element (undefined in C). -/
def CPU_TINY_ALIST_PRINT_FOREACH_loop (alist : tiny_alist) : Nat → Nat → Option (List Char)
  | 0, _ => some []
  | n + 1, i =>
    match alist.p.get? i with
    | some (some name) =>
      let p := conv_to_lowercase (string_object name)
      let out := fprintf_s_c p (if i = (alist.idx + SIZE_MOD - 1) % SIZE_MOD then NUL else SPACE)
      (CPU_TINY_ALIST_PRINT_FOREACH_loop alist n (i + 1)).map (fun rest => out ++ rest)
    | _ => none

/-- The macro `CPU_TINY_ALIST_PRINT_FOREACH(alist)`: `i` runs from 0 while
`i < alist->idx`. -/
def CPU_TINY_ALIST_PRINT_FOREACH (alist : tiny_alist) : Option (List Char) :=
  CPU_TINY_ALIST_PRINT_FOREACH_loop alist alist.idx 0

/-- The function `cpu_print_version_levels`: the list it leaves and the text it
writes to `stdout` (`none` when a print loop reads a slot that holds no element). -/
def cpu_print_version_levels (cpuid : Cpuid) (alist : tiny_alist) :
    tiny_alist × Option (List Char) :=
  let r1 := cpu_detect_version_level_v1 cpuid alist
  let out1 :=
    if r1.2 = (CPU_VERSION_LEVEL_v1 : Int) then
      (CPU_TINY_ALIST_PRINT_FOREACH r1.1).map
        (fun names => "x86-64 v1 supported (".toList ++ names ++ ")\n".toList)
    else some []
  let r2 := cpu_detect_version_level_v2 cpuid (tiny_alist_do_reset r1.1)
  let out2 :=
    if r2.2 = (CPU_VERSION_LEVEL_v2 : Int) then
      (CPU_TINY_ALIST_PRINT_FOREACH r2.1).map
        (fun names => "x86-64 v2 supported (".toList ++ names ++ ")\n".toList)
    else some []
  let r3 := cpu_detect_version_level_v3 cpuid (tiny_alist_do_reset r2.1)
  let out3 :=
    if r3.2 = (CPU_VERSION_LEVEL_v3 : Int) then
      (CPU_TINY_ALIST_PRINT_FOREACH r3.1).map
        (fun names => "x86-64 v3 supported (".toList ++ names ++ ")\n".toList)
    else some []
  let r4 := cpu_detect_version_level_v4 cpuid (tiny_alist_do_reset r3.1)
  let out4 :=
    if r4.2 = (CPU_VERSION_LEVEL_v4 : Int) then
      (CPU_TINY_ALIST_PRINT_FOREACH r4.1).map
        (fun names => "x86-64 v4 supported\n".toList ++ names ++ ")\n".toList)
    else some []
  (r4.1,
    out1.bind (fun o1 => out2.bind (fun o2 => out3.bind (fun o3 => out4.map (fun o4 =>
      o1 ++ o2 ++ o3 ++ o4)))))

/-- The function `tiny_alist_do_free`: the block is released and `p` designates no
slot. -/
def tiny_alist_do_free (_alist : tiny_alist) : tiny_alist :=
  { p := [], alloc := 0, idx := 0, total_len := 0, extra_len := 0 }

/-- How the process ends: its exit status and what it wrote to `stdout` and
`stderr`. -/
structure exit_state where
  status : Nat
  stdout : List Char
  stderr : List Char
deriving DecidableEq

/-- The function `print_help`, which ends the process through `exit(0)`; the
argument is `__progname`. -/
def print_help (progname : String) : exit_state :=
  { status := 0,
    stdout := ("Just run the " ++ progname ++
      " command. Use the '-h' flag to show this output.\n").toList,
    stderr := [] }

/-- The call `errx(1, "error: invalid argument.")`, which ends the process with
status 1 after writing the program name and the message to `stderr`. -/
def errx_invalid_argument (progname : String) : exit_state :=
  { status := 1, stdout := [],
    stderr := (progname ++ ": error: invalid argument.\n").toList }

/-- The function `main`.  The list `argv` holds the `argc` strings of the argument
vector, the program name first.  Reaching the end of `main` returns 0.  The result
is `none` when a print loop reads a slot that holds no element. -/
def main (cpuid : Cpuid) (progname : String) (argv : List String) : Option exit_state :=
  if 2 ≤ argv.length then
    if argv.get? 1 = some "-h" then some (print_help progname)
    else some (errx_invalid_argument progname)
  else
    let alist := tiny_alist_do_init ⟨[], 0, 0, 0, 0⟩
    let r := cpu_print_version_levels cpuid alist
    let _freed := tiny_alist_do_free r.1
    r.2.map (fun out => { status := 0, stdout := out, stderr := [] })

/-! ## Auxiliary definitions: call sequences on the list -/

/-- Whether the capacity bookkeeping of a push calls `realloc`; the control flow is
that of `do_alloc`. -/
def do_alloc_reallocs : Nat → tiny_alist → Bool
  | 0, _ => false
  | fuel + 1, a =>
    if a.extra_len ≤ a.total_len then true
    else
      let a1 := { a with extra_len := (a.extra_len + SIZE_MOD - SIZEOF_PTR) % SIZE_MOD }
      if a1.extra_len ≤ a1.total_len then do_alloc_reallocs fuel a1 else false

/-- A call on the list: `tiny_alist_do_init`, `tiny_alist_do_push_back` with an
element, or `tiny_alist_do_reset`. -/
inductive alist_op where
  | init
  | push (elem : String)
  | reset
deriving DecidableEq

/-- The state after one call. -/
def alist_op.apply (a : tiny_alist) : alist_op → tiny_alist
  | alist_op.init => tiny_alist_do_init a
  | alist_op.push elem => tiny_alist_do_push_back a elem
  | alist_op.reset => tiny_alist_do_reset a

/-- The state after `tiny_alist_do_init` followed by a sequence of calls. -/
def run_ops (ops : List alist_op) : tiny_alist :=
  ops.foldl alist_op.apply (tiny_alist_do_init ⟨[], 0, 0, 0, 0⟩)

/-- The elements pushed since the last `tiny_alist_do_init` or
`tiny_alist_do_reset` of a sequence of calls, in the order of the pushes. -/
def live_elems (ops : List alist_op) : List String :=
  ops.foldl
    (fun l op =>
      match op with
      | alist_op.init => []
      | alist_op.push elem => l ++ [elem]
      | alist_op.reset => [])
    []

/-- The text the print loop writes for a list of names: each name up to its
terminator, lowercased, followed by a space, or by `NUL` after the last name. -/
def names_text : List String → List Char
  | [] => []
  | [name] => (cstring name.toList).map tolower ++ [NUL]
  | name :: rest => (cstring name.toList).map tolower ++ [SPACE] ++ names_text rest

/-- The names `cpu_detect_version_level_v1` pushes: those of the table entries
whose bit is set in leaf-1 EDX. -/
def matched_v1 (cpuid : Cpuid) : List String :=
  (cpu_feat_bits_v1.filter (fun f => (cpuid 1).edx.testBit f.bit)).map (fun f => f.name)

/-- The names `cpu_detect_version_level_v2` pushes: those of the table entries
whose bit is set in leaf-1 ECX. -/
def matched_v2 (cpuid : Cpuid) : List String :=
  (cpu_feat_bits_v2.filter (fun f => (cpuid 1).ecx.testBit f.bit)).map (fun f => f.name)

/-- The names `cpu_detect_version_level_v3` pushes: those of its tests that
succeed. -/
def matched_v3 (cpuid : Cpuid) : List String :=
  ((v3_tests cpuid).filter (fun t => t.1.testBit t.2.bit)).map (fun t => t.2.name)

/-- The names `cpu_detect_version_level_v4` pushes: those of the table entries
whose bit is set in leaf-7 EBX. -/
def matched_v4 (cpuid : Cpuid) : List String :=
  (cpu_feat_bits_v4.filter (fun f => (cpuid 7).ebx.testBit f.bit)).map (fun f => f.name)

/-- A processor that reports the five AVX-512 bits of leaf 7 and nothing else. -/
def cpuid_v4_only : Cpuid :=
  cpuid_of ⟨0, 0, 0, 0⟩ ⟨0, 2 ^ 16 + 2 ^ 30 + 2 ^ 28 + 2 ^ 17 + 2 ^ 31, 0, 0⟩ ⟨0, 0, 0, 0⟩

end x86v

/-! ## Bit tests -/

theorem one_shiftLeft_mod_uint (b : Nat) (hb : b < 32) : (1 <<< b) % UINT_MOD = 2 ^ b := by
  rw [Nat.one_shiftLeft, UINT_MOD]
  exact Nat.mod_eq_of_lt (Nat.pow_lt_pow_right (by norm_num) hb)

theorem and_two_pow_eq_zero_iff (r b : Nat) : r &&& 2 ^ b = 0 ↔ r.testBit b = false := by
  constructor
  · intro h
    have h1 : (r &&& 2 ^ b).testBit b = false := by rw [h]; exact Nat.zero_testBit b
    rw [Nat.testBit_and, Nat.testBit_two_pow_self, Bool.and_true] at h1
    exact h1
  · intro h
    apply Nat.eq_of_testBit_eq
    intro i
    rw [Nat.testBit_and, Nat.testBit_two_pow, Nat.zero_testBit]
    by_cases hi : b = i
    · subst hi; simp [h]
    · simp [hi]

namespace x86v

theorem cpu_has_feat_ne_zero (reg bit : Nat) (hb : bit < 32) :
    cpu_has_feat reg bit ≠ 0 ↔ reg.testBit bit = true := by
  unfold cpu_has_feat
  rw [one_shiftLeft_mod_uint bit hb]
  by_cases h : reg.testBit bit = true
  · have h1 : reg &&& 2 ^ bit ≠ 0 := by
      rw [Ne, and_two_pow_eq_zero_iff]; simp [h]
    simp [h1, h]
  · have h1 : reg &&& 2 ^ bit = 0 := by
      rw [and_two_pow_eq_zero_iff]; simpa using h
    simp [h1, h]

end x86v

namespace IsX86Feat

theorem check_eq_testBit (reg bit : Nat) (hb : bit < 32) :
    check reg bit = reg.testBit bit := by
  unfold check
  rw [one_shiftLeft_mod_uint bit hb]
  by_cases h : reg.testBit bit = true
  · have h1 : reg &&& 2 ^ bit ≠ 0 := by
      rw [Ne, and_two_pow_eq_zero_iff]; simp [h]
    simp [h1, h]
  · have h1 : reg &&& 2 ^ bit = 0 := by
      rw [and_two_pow_eq_zero_iff]; simpa using h
    simp [h1, h]

end IsX86Feat

/-! ## The array list: well-formed states and the effect of a push -/

theorem take_succ_set {α : Type} (l : List α) (i : Nat) (x : α) (h : i < l.length) :
    (l.set i x).take (i + 1) = l.take i ++ [x] := by
  induction l generalizing i with
  | nil => simp at h
  | cons y ys ih =>
    cases i with
    | zero => simp
    | succ j =>
      have hj : j < ys.length := by simpa using h
      simp [List.set, List.take, ih j hj]

namespace x86v

/-- The state after the capacity bookkeeping of a push: one or two passes through
the label `do_alloc`. -/
theorem do_alloc_two (a : tiny_alist) :
    do_alloc 2 a =
      if a.extra_len ≤ a.total_len ∨
          (a.extra_len + SIZE_MOD - SIZEOF_PTR) % SIZE_MOD ≤ a.total_len then
        { a with extra_len := ((a.total_len + SIZEOF_PTR) * 2) % SIZE_MOD,
                 p := realloc_block a.p (((a.total_len + SIZEOF_PTR) * 2) % SIZE_MOD),
                 alloc := ((a.total_len + SIZEOF_PTR) * 2) % SIZE_MOD }
      else
        { a with extra_len := (a.extra_len + SIZE_MOD - SIZEOF_PTR) % SIZE_MOD } := by
  by_cases h1 : a.extra_len ≤ a.total_len
  · simp [do_alloc, h1]
  · by_cases h2 : (a.extra_len + SIZE_MOD - SIZEOF_PTR) % SIZE_MOD ≤ a.total_len
    · simp [do_alloc, h1, h2]
    · simp [do_alloc, h1, h2]

/-- The jump `goto do_alloc` is taken at most once: any bound of at least two
passes gives the same state. -/
theorem do_alloc_fuel (n : Nat) (a : tiny_alist) : do_alloc (n + 2) a = do_alloc 2 a := by
  by_cases h1 : a.extra_len ≤ a.total_len
  · simp [do_alloc, h1]
  · by_cases h2 : (a.extra_len + SIZE_MOD - SIZEOF_PTR) % SIZE_MOD ≤ a.total_len
    · simp [do_alloc, h1, h2]
    · simp [do_alloc, h1, h2]

theorem realloc_block_length (p : List (Option String)) (n : Nat) :
    (realloc_block p n).length = n / SIZEOF_PTR := by
  simp [realloc_block, List.length_take]
  omega

theorem realloc_block_take (p : List (Option String)) (n i : Nat)
    (h1 : i ≤ p.length) (h2 : i ≤ n / SIZEOF_PTR) :
    (realloc_block p n).take i = p.take i := by
  unfold realloc_block
  rw [List.take_append_of_le_length (by simp [List.length_take]; omega)]
  rw [List.take_take]
  congr 1
  omega

/-- A push on a well-formed state that is not about to overflow `size_t` appends
the element and keeps the state well formed. -/
theorem tiny_alist_do_push_back_wf (a : tiny_alist) (e : String) (hwf : a.wf)
    (hidx : a.idx + 1 < 2 ^ 60) :
    (tiny_alist_do_push_back a e).wf ∧
      (tiny_alist_do_push_back a e).idx = a.idx + 1 ∧
      (tiny_alist_do_push_back a e).elems = a.elems ++ [some e] := by
  obtain ⟨h1, h2, h3, h4, h5, h6⟩ := hwf
  simp only [SIZEOF_PTR, SIZE_MOD] at h1 h2 h3 h4 h5 h6
  obtain ⟨k, hk⟩ := h2
  have key : ∃ a1 : tiny_alist, do_alloc 2 a = a1 ∧ a1.idx = a.idx ∧ a1.total_len = a.total_len ∧
      a1.p.take a.idx = a.p.take a.idx ∧ a.idx < a1.p.length ∧ 8 ∣ a1.extra_len ∧
      a1.extra_len ≤ a1.alloc ∧ a1.total_len + 8 ≤ a1.alloc ∧ a1.alloc < 2 ^ 64 ∧
      a1.p.length = a1.alloc / 8 := by
    refine ⟨_, rfl, ?_⟩
    rw [do_alloc_two]
    have hmod : (a.total_len + 8) * 2 % 2 ^ 64 = 16 * a.idx + 16 := by
      rw [h1]; omega
    split
    · simp only [SIZEOF_PTR, SIZE_MOD, hmod]
      refine ⟨trivial, trivial, ?_, ?_, ?_, le_refl _, ?_, ?_, ?_⟩
      · apply realloc_block_take
        · rw [h6]; omega
        · simp only [SIZEOF_PTR]; omega
      · rw [realloc_block_length]; simp only [SIZEOF_PTR]; omega
      · omega
      · omega
      · omega
      · rw [realloc_block_length]; rfl
    · rename_i hc
      simp only [SIZEOF_PTR, SIZE_MOD, not_or, not_le] at hc
      obtain ⟨hc1, hc2⟩ := hc
      have hsub : (a.extra_len + 2 ^ 64 - 8) % 2 ^ 64 = a.extra_len - 8 := by omega
      rw [hsub] at hc2
      simp only [SIZEOF_PTR, SIZE_MOD, hsub]
      refine ⟨trivial, trivial, trivial, ?_, ?_, ?_, ?_, h5, h6⟩
      · rw [h6]; omega
      · omega
      · omega
      · omega
  obtain ⟨a1, ha1, e1, e2, e3, e4, e5, e6, e7, e8, e9⟩ := key
  have hpush : tiny_alist_do_push_back a e =
      { a1 with p := a1.p.set a1.idx (some e), idx := (a1.idx + 1) % SIZE_MOD,
                total_len := (a1.total_len + SIZEOF_PTR) % SIZE_MOD } := by
    simp [tiny_alist_do_push_back, ha1]
  rw [hpush]
  have m1 : (a1.idx + 1) % SIZE_MOD = a.idx + 1 := by
    rw [e1]; simp only [SIZE_MOD]; omega
  have m2 : (a1.total_len + SIZEOF_PTR) % SIZE_MOD = 8 * (a.idx + 1) := by
    rw [e2, h1]; simp only [SIZE_MOD, SIZEOF_PTR]; omega
  refine ⟨?_, m1, ?_⟩
  · dsimp only [tiny_alist.wf]
    rw [m1, m2, List.length_set]
    simp only [SIZEOF_PTR, SIZE_MOD]
    refine ⟨trivial, e5, e6, ?_, e8, e9⟩
    rw [e2, h1] at e7; omega
  · dsimp only [tiny_alist.elems]
    rw [m1, e1, take_succ_set _ _ _ e4, e3]

theorem push_all_append (a : tiny_alist) (l1 l2 : List String) :
    push_all (push_all a l1) l2 = push_all a (l1 ++ l2) := by
  simp [push_all, List.foldl_append]

theorem push_all_wf (names : List String) (a : tiny_alist) (hwf : a.wf)
    (hidx : a.idx + names.length < 2 ^ 60) :
    (push_all a names).wf ∧ (push_all a names).idx = a.idx + names.length ∧
      (push_all a names).elems = a.elems ++ names.map some := by
  induction names generalizing a with
  | nil => simp [push_all, hwf]
  | cons n ns ih =>
    simp only [List.length_cons] at hidx
    obtain ⟨w1, w2, w3⟩ := tiny_alist_do_push_back_wf a n hwf (by omega)
    obtain ⟨i1, i2, i3⟩ := ih (tiny_alist_do_push_back a n) w1 (by rw [w2]; omega)
    have hstep : push_all a (n :: ns) = push_all (tiny_alist_do_push_back a n) ns := by
      simp [push_all]
    rw [hstep]
    refine ⟨i1, ?_, ?_⟩
    · rw [i2, w2, List.length_cons]; omega
    · rw [i3, w3]; simp

/-- The loop shared by `cpu_detect_version_level_v1` and `CPU_FEAT_FOREACH`, with
the modulus of the type of `level`: the list receives the names of the entries
whose bit is set, and `level` their bit positions. -/
theorem feat_loop (M reg : Nat) (arr : List cpu_feat_bits) (a : tiny_alist) (level : Nat) :
    arr.foldl
      (fun (st : tiny_alist × Nat) f =>
        if cpu_has_feat reg f.bit ≠ 0 then
          (tiny_alist_do_push_back st.1 f.name, (st.2 + f.bit) % M)
        else st)
      (a, level) =
    (push_all a ((arr.filter (fun f => cpu_has_feat reg f.bit ≠ 0)).map (fun f => f.name)),
     arr.foldl (fun s f => if cpu_has_feat reg f.bit ≠ 0 then (s + f.bit) % M else s) level) := by
  induction arr generalizing a level with
  | nil => simp [push_all]
  | cons f fs ih =>
    rw [List.foldl_cons, List.foldl_cons]
    by_cases h : cpu_has_feat reg f.bit ≠ 0
    · rw [if_pos h, if_pos h, ih]
      simp [List.filter_cons, h, push_all]
    · rw [if_neg h, if_neg h, ih]
      simp [List.filter_cons, h]

theorem CPU_FEAT_ADD_OK_eq (reg level bit : Nat) (name : String) (a : tiny_alist) :
    CPU_FEAT_ADD_OK reg level bit name a =
      (push_all a (if cpu_has_feat reg bit ≠ 0 then [name] else []),
       if cpu_has_feat reg bit ≠ 0 then (level + bit) % UINT_MOD else level) := by
  by_cases h : cpu_has_feat reg bit = 0
  · simp [CPU_FEAT_ADD_OK, h, push_all]
  · simp [CPU_FEAT_ADD_OK, h, push_all]


/-! ## The value of `level` and the returned value of the four level functions -/

theorem v1_sum_iff (cpuid : Cpuid) (alist : tiny_alist) :
    (cpu_detect_version_level_v1_sum cpuid alist).2 = 132 ↔
      ∀ b ∈ [8, 11, 15, 23, 24, 25, 26], (cpuid 1).edx.testBit b = true := by
  simp only [cpu_detect_version_level_v1_sum, feat_loop]
  simp only [cpu_feat_bits_v1, List.foldl,
    FPU, CX8, SCE, CMOV, MMX, FXSR, SSE, SSE2,
    cpu_has_feat_ne_zero _ _ (by norm_num : (0:Nat) < 32),
    cpu_has_feat_ne_zero _ _ (by norm_num : (8:Nat) < 32),
    cpu_has_feat_ne_zero _ _ (by norm_num : (11:Nat) < 32),
    cpu_has_feat_ne_zero _ _ (by norm_num : (15:Nat) < 32),
    cpu_has_feat_ne_zero _ _ (by norm_num : (23:Nat) < 32),
    cpu_has_feat_ne_zero _ _ (by norm_num : (24:Nat) < 32),
    cpu_has_feat_ne_zero _ _ (by norm_num : (25:Nat) < 32),
    cpu_has_feat_ne_zero _ _ (by norm_num : (26:Nat) < 32),
    List.forall_mem_cons, List.not_mem_nil, IsEmpty.forall_iff, implies_true, and_true]
  generalize (cpuid 1).edx.testBit 0 = b0
  generalize (cpuid 1).edx.testBit 8 = b1
  generalize (cpuid 1).edx.testBit 11 = b2
  generalize (cpuid 1).edx.testBit 15 = b3
  generalize (cpuid 1).edx.testBit 23 = b4
  generalize (cpuid 1).edx.testBit 24 = b5
  generalize (cpuid 1).edx.testBit 25 = b6
  generalize (cpuid 1).edx.testBit 26 = b7
  revert b0 b1 b2 b3 b4 b5 b6 b7
  simp only [SIZE_MOD]
  decide

theorem v2_sum_iff (cpuid : Cpuid) (alist : tiny_alist) :
    (cpu_detect_version_level_v2_sum cpuid alist).2 = 84 ↔
      ∀ b ∈ [13, 23, 19, 20, 9], (cpuid 1).ecx.testBit b = true := by
  simp only [cpu_detect_version_level_v2_sum, CPU_FEAT_FOREACH, feat_loop, apply_ite Prod.snd]
  simp only [cpu_feat_bits_v2, List.foldl, CMPXCHG16B, POPCNT, SSE3, SSE4_1, SSE4_2, SSSE3, LAHF_SAHF,
    cpu_has_feat_ne_zero _ _ (by norm_num : (0:Nat) < 32),
    cpu_has_feat_ne_zero _ _ (by norm_num : (13:Nat) < 32),
    cpu_has_feat_ne_zero _ _ (by norm_num : (23:Nat) < 32),
    cpu_has_feat_ne_zero _ _ (by norm_num : (19:Nat) < 32),
    cpu_has_feat_ne_zero _ _ (by norm_num : (20:Nat) < 32),
    cpu_has_feat_ne_zero _ _ (by norm_num : (9:Nat) < 32),
    List.forall_mem_cons, List.not_mem_nil, IsEmpty.forall_iff, implies_true, and_true]
  generalize (cpuid 1).ecx.testBit 13 = b0
  generalize (cpuid 1).ecx.testBit 23 = b1
  generalize (cpuid 1).ecx.testBit 0 = b2
  generalize (cpuid 1).ecx.testBit 19 = b3
  generalize (cpuid 1).ecx.testBit 20 = b4
  generalize (cpuid 1).ecx.testBit 9 = b5
  generalize (cpuid 0x80000001).ecx.testBit 0 = b6
  revert b0 b1 b2 b3 b4 b5 b6
  simp only [UINT_MOD]
  decide

theorem v3_sum_iff (cpuid : Cpuid) (alist : tiny_alist) :
    (cpu_detect_version_level_v3_sum cpuid alist).2 = 139 ↔
      (∀ b ∈ [28, 29, 12, 22, 27], (cpuid 1).ecx.testBit b = true) ∧
      (∀ b ∈ [5, 3, 8], (cpuid 7).ebx.testBit b = true) ∧
      (cpuid 0x80000001).ecx.testBit 5 = true := by
  simp only [cpu_detect_version_level_v3_sum, CPU_FEAT_ADD_OK_eq,
    AVX, F16C, FMA, MOVBE, OSXSAVE, AVX2, BMI1, BMI2, LZCNT,
    cpu_has_feat_ne_zero _ _ (by norm_num : (28:Nat) < 32),
    cpu_has_feat_ne_zero _ _ (by norm_num : (29:Nat) < 32),
    cpu_has_feat_ne_zero _ _ (by norm_num : (12:Nat) < 32),
    cpu_has_feat_ne_zero _ _ (by norm_num : (22:Nat) < 32),
    cpu_has_feat_ne_zero _ _ (by norm_num : (27:Nat) < 32),
    cpu_has_feat_ne_zero _ _ (by norm_num : (5:Nat) < 32),
    cpu_has_feat_ne_zero _ _ (by norm_num : (3:Nat) < 32),
    cpu_has_feat_ne_zero _ _ (by norm_num : (8:Nat) < 32),
    List.forall_mem_cons, List.not_mem_nil, IsEmpty.forall_iff, implies_true, and_true]
  generalize (cpuid 1).ecx.testBit 28 = b1
  generalize (cpuid 1).ecx.testBit 29 = b2
  generalize (cpuid 1).ecx.testBit 12 = b3
  generalize (cpuid 1).ecx.testBit 22 = b4
  generalize (cpuid 1).ecx.testBit 27 = b5
  generalize (cpuid 7).ebx.testBit 5 = b6
  generalize (cpuid 7).ebx.testBit 3 = b7
  generalize (cpuid 7).ebx.testBit 8 = b8
  generalize (cpuid 0x80000001).ecx.testBit 5 = b9
  revert b1 b2 b3 b4 b5 b6 b7 b8 b9
  simp only [UINT_MOD]
  decide

theorem v4_sum_iff (cpuid : Cpuid) (alist : tiny_alist) :
    (cpu_detect_version_level_v4_sum cpuid alist).2 = 122 ↔
      ∀ b ∈ [16, 30, 28, 17, 31], (cpuid 7).ebx.testBit b = true := by
  simp only [cpu_detect_version_level_v4_sum, CPU_FEAT_FOREACH, feat_loop]
  simp only [cpu_feat_bits_v4, List.foldl, AVX512F, AVX512BW, AVX512CD, AVX512DQ, AVX512VL,
    cpu_has_feat_ne_zero _ _ (by norm_num : (16:Nat) < 32),
    cpu_has_feat_ne_zero _ _ (by norm_num : (30:Nat) < 32),
    cpu_has_feat_ne_zero _ _ (by norm_num : (28:Nat) < 32),
    cpu_has_feat_ne_zero _ _ (by norm_num : (17:Nat) < 32),
    cpu_has_feat_ne_zero _ _ (by norm_num : (31:Nat) < 32),
    List.forall_mem_cons, List.not_mem_nil, IsEmpty.forall_iff, implies_true, and_true]
  generalize (cpuid 7).ebx.testBit 16 = b0
  generalize (cpuid 7).ebx.testBit 30 = b1
  generalize (cpuid 7).ebx.testBit 28 = b2
  generalize (cpuid 7).ebx.testBit 17 = b3
  generalize (cpuid 7).ebx.testBit 31 = b4
  revert b0 b1 b2 b3 b4
  simp only [UINT_MOD]
  decide

/-- Each level function returns its level constant when `level` equals it and `-1`
otherwise. -/
theorem level_ret (cpuid : Cpuid) (alist : tiny_alist) :
    ((cpu_detect_version_level_v1 cpuid alist).2 =
        if (cpu_detect_version_level_v1_sum cpuid alist).2 = 132 then 132 else -1) ∧
    ((cpu_detect_version_level_v2 cpuid alist).2 =
        if (cpu_detect_version_level_v2_sum cpuid alist).2 = 84 then 84 else -1) ∧
    ((cpu_detect_version_level_v3 cpuid alist).2 =
        if (cpu_detect_version_level_v3_sum cpuid alist).2 = 139 then 139 else -1) ∧
    ((cpu_detect_version_level_v4 cpuid alist).2 =
        if (cpu_detect_version_level_v4_sum cpuid alist).2 = 122 then 122 else -1) := by
  simp [cpu_detect_version_level_v1, cpu_detect_version_level_v2, cpu_detect_version_level_v3,
    cpu_detect_version_level_v4, CPU_VERSION_LEVEL_v1, CPU_VERSION_LEVEL_v2,
    CPU_VERSION_LEVEL_v3, CPU_VERSION_LEVEL_v4]

/-! ## The names pushed by the four level functions -/

theorem v1_list (cpuid : Cpuid) (alist : tiny_alist) :
    (cpu_detect_version_level_v1 cpuid alist).1 =
      push_all alist
        ((cpu_feat_bits_v1.filter (fun f => (cpuid 1).edx.testBit f.bit)).map
          (fun f => f.name)) := by
  simp only [cpu_detect_version_level_v1, cpu_detect_version_level_v1_sum, feat_loop]
  congr 2
  apply List.filter_congr
  intro f hf
  have hb : f.bit < 32 := by
    simp only [cpu_feat_bits_v1, List.mem_cons, List.mem_singleton, List.not_mem_nil,
      or_false] at hf
    rcases hf with h | h | h | h | h | h | h | h <;> rw [h] <;>
      simp [FPU, CX8, SCE, CMOV, MMX, FXSR, SSE, SSE2]
  simp [cpu_has_feat_ne_zero _ _ hb]

theorem v2_list (cpuid : Cpuid) (alist : tiny_alist) :
    (cpu_detect_version_level_v2 cpuid alist).1 =
      push_all alist
        ((cpu_feat_bits_v2.filter (fun f => (cpuid 1).ecx.testBit f.bit)).map
          (fun f => f.name)) := by
  simp only [cpu_detect_version_level_v2, cpu_detect_version_level_v2_sum, CPU_FEAT_FOREACH,
    feat_loop, apply_ite Prod.fst, ite_self]
  congr 2
  apply List.filter_congr
  intro f hf
  have hb : f.bit < 32 := by
    simp only [cpu_feat_bits_v2, List.mem_cons, List.mem_singleton, List.not_mem_nil,
      or_false] at hf
    rcases hf with h | h | h | h | h | h <;> rw [h] <;>
      simp [CMPXCHG16B, POPCNT, SSE3, SSE4_1, SSE4_2, SSSE3]
  simp [cpu_has_feat_ne_zero _ _ hb]

theorem v3_list (cpuid : Cpuid) (alist : tiny_alist) :
    (cpu_detect_version_level_v3 cpuid alist).1 =
      push_all alist
        (((v3_tests cpuid).filter (fun t => t.1.testBit t.2.bit)).map (fun t => t.2.name)) := by
  simp only [cpu_detect_version_level_v3, cpu_detect_version_level_v3_sum, CPU_FEAT_ADD_OK_eq,
    push_all_append, v3_tests, List.filter_cons, List.filter_nil,
    AVX, F16C, FMA, MOVBE, OSXSAVE, AVX2, BMI1, BMI2, LZCNT,
    cpu_has_feat_ne_zero _ _ (by norm_num : (28:Nat) < 32),
    cpu_has_feat_ne_zero _ _ (by norm_num : (29:Nat) < 32),
    cpu_has_feat_ne_zero _ _ (by norm_num : (12:Nat) < 32),
    cpu_has_feat_ne_zero _ _ (by norm_num : (22:Nat) < 32),
    cpu_has_feat_ne_zero _ _ (by norm_num : (27:Nat) < 32),
    cpu_has_feat_ne_zero _ _ (by norm_num : (5:Nat) < 32),
    cpu_has_feat_ne_zero _ _ (by norm_num : (3:Nat) < 32),
    cpu_has_feat_ne_zero _ _ (by norm_num : (8:Nat) < 32)]
  congr 1
  generalize (cpuid 1).ecx.testBit 28 = b1
  generalize (cpuid 1).ecx.testBit 29 = b2
  generalize (cpuid 1).ecx.testBit 12 = b3
  generalize (cpuid 1).ecx.testBit 22 = b4
  generalize (cpuid 1).ecx.testBit 27 = b5
  generalize (cpuid 7).ebx.testBit 5 = b6
  generalize (cpuid 7).ebx.testBit 3 = b7
  generalize (cpuid 7).ebx.testBit 8 = b8
  generalize (cpuid 0x80000001).ecx.testBit 5 = b9
  cases b1 <;> cases b2 <;> cases b3 <;> cases b4 <;> cases b5 <;> cases b6 <;> cases b7 <;>
    cases b8 <;> cases b9 <;> rfl

theorem v4_list (cpuid : Cpuid) (alist : tiny_alist) :
    (cpu_detect_version_level_v4 cpuid alist).1 =
      push_all alist
        ((cpu_feat_bits_v4.filter (fun f => (cpuid 7).ebx.testBit f.bit)).map
          (fun f => f.name)) := by
  simp only [cpu_detect_version_level_v4, cpu_detect_version_level_v4_sum, CPU_FEAT_FOREACH,
    feat_loop]
  congr 2
  apply List.filter_congr
  intro f hf
  have hb : f.bit < 32 := by
    simp only [cpu_feat_bits_v4, List.mem_cons, List.mem_singleton, List.not_mem_nil,
      or_false] at hf
    rcases hf with h | h | h | h | h <;> rw [h] <;>
      simp [AVX512F, AVX512BW, AVX512CD, AVX512DQ, AVX512VL]
  simp [cpu_has_feat_ne_zero _ _ hb]

end x86v

namespace x86v

/-! ## Claims about the level functions -/

/-- The elements of the list after each level function: those it held before,
followed by the names of the tested features whose bit is set, in the order of the
tests.  For `cpu_detect_version_level_v2` these are the six table features only. -/
theorem level_elems (cpuid : Cpuid) (a : tiny_alist) (hwf : a.wf)
    (hidx : a.idx + 9 < 2 ^ 60) :
    (cpu_detect_version_level_v1 cpuid a).1.elems =
        a.elems ++ (cpu_feat_bits_v1.filter (fun f => (cpuid 1).edx.testBit f.bit)).map
          (fun f => some f.name) ∧
    (cpu_detect_version_level_v2 cpuid a).1.elems =
        a.elems ++ (cpu_feat_bits_v2.filter (fun f => (cpuid 1).ecx.testBit f.bit)).map
          (fun f => some f.name) ∧
    (cpu_detect_version_level_v3 cpuid a).1.elems =
        a.elems ++ ((v3_tests cpuid).filter (fun t => t.1.testBit t.2.bit)).map
          (fun t => some t.2.name) ∧
    (cpu_detect_version_level_v4 cpuid a).1.elems =
        a.elems ++ (cpu_feat_bits_v4.filter (fun f => (cpuid 7).ebx.testBit f.bit)).map
          (fun f => some f.name) := by
  have len1 : (cpu_feat_bits_v1.filter (fun f => (cpuid 1).edx.testBit f.bit)).length ≤ 8 :=
    le_trans (List.length_filter_le _ _) (by decide)
  have len2 : (cpu_feat_bits_v2.filter (fun f => (cpuid 1).ecx.testBit f.bit)).length ≤ 6 :=
    le_trans (List.length_filter_le _ _) (by decide)
  have len3 : ((v3_tests cpuid).filter (fun t => t.1.testBit t.2.bit)).length ≤ 9 :=
    le_trans (List.length_filter_le _ _) (by simp [v3_tests])
  have len4 : (cpu_feat_bits_v4.filter (fun f => (cpuid 7).ebx.testBit f.bit)).length ≤ 5 :=
    le_trans (List.length_filter_le _ _) (by decide)
  refine ⟨?_, ?_, ?_, ?_⟩
  · rw [v1_list, (push_all_wf _ a hwf (by rw [List.length_map]; omega)).2.2, List.map_map]
    rfl
  · rw [v2_list, (push_all_wf _ a hwf (by rw [List.length_map]; omega)).2.2, List.map_map]
    rfl
  · rw [v3_list, (push_all_wf _ a hwf (by rw [List.length_map]; omega)).2.2, List.map_map]
    rfl
  · rw [v4_list, (push_all_wf _ a hwf (by rw [List.length_map]; omega)).2.2, List.map_map]
    rfl

/-- C1: when every bit a level function tests is set (v1: leaf-1 EDX bits 0, 8, 11,
15, 23, 24, 25, 26; v2: leaf-1 ECX bits 13, 23, 0, 19, 20, 9 and extended-leaf ECX
bit 0; v3: leaf-1 ECX bits 28, 29, 12, 22, 27, leaf-7 EBX bits 5, 3, 8 and
extended-leaf ECX bit 5; v4: leaf-7 EBX bits 16, 30, 28, 17, 31), the sum of bit
positions is 132, 84, 139 and 122 respectively and the function returns that
constant, whatever the other bits and the list passed in. -/
theorem level_supported_of_tested_bits_set (cpuid : Cpuid) (alist : tiny_alist) :
    ((∀ b ∈ [0, 8, 11, 15, 23, 24, 25, 26], (cpuid 1).edx.testBit b = true) →
      (cpu_detect_version_level_v1_sum cpuid alist).2 = 132 ∧
      (cpu_detect_version_level_v1 cpuid alist).2 = 132) ∧
    ((∀ b ∈ [13, 23, 0, 19, 20, 9], (cpuid 1).ecx.testBit b = true) →
      (cpuid 0x80000001).ecx.testBit 0 = true →
      (cpu_detect_version_level_v2_sum cpuid alist).2 = 84 ∧
      (cpu_detect_version_level_v2 cpuid alist).2 = 84) ∧
    ((∀ b ∈ [28, 29, 12, 22, 27], (cpuid 1).ecx.testBit b = true) →
      (∀ b ∈ [5, 3, 8], (cpuid 7).ebx.testBit b = true) →
      (cpuid 0x80000001).ecx.testBit 5 = true →
      (cpu_detect_version_level_v3_sum cpuid alist).2 = 139 ∧
      (cpu_detect_version_level_v3 cpuid alist).2 = 139) ∧
    ((∀ b ∈ [16, 30, 28, 17, 31], (cpuid 7).ebx.testBit b = true) →
      (cpu_detect_version_level_v4_sum cpuid alist).2 = 122 ∧
      (cpu_detect_version_level_v4 cpuid alist).2 = 122) := by
  obtain ⟨r1, r2, r3, r4⟩ := level_ret cpuid alist
  refine ⟨?_, ?_, ?_, ?_⟩
  · intro h
    have e : (cpu_detect_version_level_v1_sum cpuid alist).2 = 132 :=
      (v1_sum_iff cpuid alist).2 (fun b hb => h b (by
        simp only [List.mem_cons, List.mem_singleton, List.not_mem_nil, or_false] at hb ⊢
        omega))
    exact ⟨e, by rw [r1, if_pos e]⟩
  · intro h _
    have e : (cpu_detect_version_level_v2_sum cpuid alist).2 = 84 :=
      (v2_sum_iff cpuid alist).2 (fun b hb => h b (by
        simp only [List.mem_cons, List.mem_singleton, List.not_mem_nil, or_false] at hb ⊢
        omega))
    exact ⟨e, by rw [r2, if_pos e]⟩
  · intro h1 h2 h3
    have e : (cpu_detect_version_level_v3_sum cpuid alist).2 = 139 :=
      (v3_sum_iff cpuid alist).2 ⟨h1, h2, h3⟩
    exact ⟨e, by rw [r3, if_pos e]⟩
  · intro h
    have e : (cpu_detect_version_level_v4_sum cpuid alist).2 = 122 :=
      (v4_sum_iff cpuid alist).2 h
    exact ⟨e, by rw [r4, if_pos e]⟩

/-- C1, at the processor with every bit set and the freshly initialised list: all
four level functions return their level constant. -/
theorem level_supported_of_tested_bits_set_witness :
    (cpu_detect_version_level_v1 cpuid_all_set alist_fresh).2 = 132 ∧
    (cpu_detect_version_level_v2 cpuid_all_set alist_fresh).2 = 84 ∧
    (cpu_detect_version_level_v3 cpuid_all_set alist_fresh).2 = 139 ∧
    (cpu_detect_version_level_v4 cpuid_all_set alist_fresh).2 = 122 :=
  ⟨((level_supported_of_tested_bits_set cpuid_all_set alist_fresh).1 (by decide)).2,
   ((level_supported_of_tested_bits_set cpuid_all_set alist_fresh).2.1
      (by decide) (by decide)).2,
   ((level_supported_of_tested_bits_set cpuid_all_set alist_fresh).2.2.1
      (by decide) (by decide) (by decide)).2,
   ((level_supported_of_tested_bits_set cpuid_all_set alist_fresh).2.2.2 (by decide)).2⟩

/-- C2: for all register values and any list, `cpu_detect_version_level_v3` returns
139 exactly when all nine bits it tests are set, and `-1` exactly when one of them
is clear; the sum of bit positions is 139 exactly when all nine are set.  The same
holds of `cpu_detect_version_level_v4` with 122 and its five bits. -/
theorem level_v3_v4_supported_iff (cpuid : Cpuid) (alist : tiny_alist) :
    ((cpu_detect_version_level_v3 cpuid alist).2 = 139 ↔
      ((∀ b ∈ [28, 29, 12, 22, 27], (cpuid 1).ecx.testBit b = true) ∧
       (∀ b ∈ [5, 3, 8], (cpuid 7).ebx.testBit b = true) ∧
       (cpuid 0x80000001).ecx.testBit 5 = true)) ∧
    ((cpu_detect_version_level_v3 cpuid alist).2 = -1 ↔
      ¬ ((∀ b ∈ [28, 29, 12, 22, 27], (cpuid 1).ecx.testBit b = true) ∧
         (∀ b ∈ [5, 3, 8], (cpuid 7).ebx.testBit b = true) ∧
         (cpuid 0x80000001).ecx.testBit 5 = true)) ∧
    ((cpu_detect_version_level_v3_sum cpuid alist).2 = 139 ↔
      ((∀ b ∈ [28, 29, 12, 22, 27], (cpuid 1).ecx.testBit b = true) ∧
       (∀ b ∈ [5, 3, 8], (cpuid 7).ebx.testBit b = true) ∧
       (cpuid 0x80000001).ecx.testBit 5 = true)) ∧
    ((cpu_detect_version_level_v4 cpuid alist).2 = 122 ↔
      ∀ b ∈ [16, 30, 28, 17, 31], (cpuid 7).ebx.testBit b = true) ∧
    ((cpu_detect_version_level_v4 cpuid alist).2 = -1 ↔
      ¬ ∀ b ∈ [16, 30, 28, 17, 31], (cpuid 7).ebx.testBit b = true) ∧
    ((cpu_detect_version_level_v4_sum cpuid alist).2 = 122 ↔
      ∀ b ∈ [16, 30, 28, 17, 31], (cpuid 7).ebx.testBit b = true) := by
  obtain ⟨_, _, r3, r4⟩ := level_ret cpuid alist
  have s3 := v3_sum_iff cpuid alist
  have s4 := v4_sum_iff cpuid alist
  refine ⟨?_, ?_, s3, ?_, ?_, s4⟩
  · rw [r3, ← s3]; split <;> simp_all
  · rw [r3, ← s3]; split <;> simp_all
  · rw [r4, ← s4]; split <;> simp_all
  · rw [r4, ← s4]; split <;> simp_all

/-- C3: with leaf-1 EDX holding exactly the eight v1 feature bits,
`cpu_detect_version_level_v1` returns 132; with the FPU bit (bit 0) cleared from
that value it still returns 132, although clearing any one of the other seven bits
makes it return `-1`. -/
theorem level_v1_supported_without_fpu :
    (cpu_detect_version_level_v1
      (cpuid_of ⟨0, 0, 0, V1_EDX⟩ ⟨0, 0, 0, 0⟩ ⟨0, 0, 0, 0⟩) alist_fresh).2 = 132 ∧
    Nat.testBit (V1_EDX - 2 ^ FPU) FPU = false ∧
    (cpu_detect_version_level_v1
      (cpuid_of ⟨0, 0, 0, V1_EDX - 2 ^ FPU⟩ ⟨0, 0, 0, 0⟩ ⟨0, 0, 0, 0⟩) alist_fresh).2 = 132 ∧
    ∀ b ∈ [CX8, SCE, CMOV, MMX, FXSR, SSE, SSE2],
      (cpu_detect_version_level_v1
        (cpuid_of ⟨0, 0, 0, V1_EDX - 2 ^ b⟩ ⟨0, 0, 0, 0⟩ ⟨0, 0, 0, 0⟩) alist_fresh).2 = -1 := by
  decide

/-- C4: with leaf-1 ECX holding exactly the six v2 table bits and extended-leaf ECX
exactly the LAHF_SAHF bit, `cpu_detect_version_level_v2` returns 84; it still
returns 84 with the SSE3 bit (leaf-1 ECX bit 0) cleared, and also with the
LAHF_SAHF bit (extended-leaf ECX bit 0) cleared, although clearing any one of the
other five bits makes it return `-1`. -/
theorem level_v2_supported_without_sse3_or_lahf :
    (cpu_detect_version_level_v2
      (cpuid_of ⟨0, 0, V2_ECX, 0⟩ ⟨0, 0, 0, 0⟩ ⟨0, 0, 2 ^ LAHF_SAHF, 0⟩) alist_fresh).2 = 84 ∧
    Nat.testBit (V2_ECX - 2 ^ SSE3) SSE3 = false ∧
    (cpu_detect_version_level_v2
      (cpuid_of ⟨0, 0, V2_ECX - 2 ^ SSE3, 0⟩ ⟨0, 0, 0, 0⟩ ⟨0, 0, 2 ^ LAHF_SAHF, 0⟩)
      alist_fresh).2 = 84 ∧
    (cpu_detect_version_level_v2
      (cpuid_of ⟨0, 0, V2_ECX, 0⟩ ⟨0, 0, 0, 0⟩ ⟨0, 0, 0, 0⟩) alist_fresh).2 = 84 ∧
    ∀ b ∈ [CMPXCHG16B, POPCNT, SSE4_1, SSE4_2, SSSE3],
      (cpu_detect_version_level_v2
        (cpuid_of ⟨0, 0, V2_ECX - 2 ^ b, 0⟩ ⟨0, 0, 0, 0⟩ ⟨0, 0, 2 ^ LAHF_SAHF, 0⟩)
        alist_fresh).2 = -1 := by
  decide

/-- C5: on the processor with every bit set, `cpu_detect_version_level_v2` finds
the LAHF_SAHF bit set (its test succeeds), yet the list it leaves holds the six
table names only: no name is pushed for LAHF_SAHF. -/
theorem level_v2_list_omits_lahf_sahf :
    cpu_has_feat (cpuid_all_set 0x80000001).ecx LAHF_SAHF ≠ 0 ∧
    (cpu_detect_version_level_v2 cpuid_all_set alist_fresh).1.elems =
      [some "cmpxchg16b", some "popcnt", some "sse3", some "sse4.1", some "sse4.2",
       some "ssse3"] ∧
    (cpu_detect_version_level_v2 cpuid_all_set alist_fresh).1.idx = 6 := by
  decide

end x86v

namespace IsX86Feat

/-! ## The feature table -/

/-- Every enumerator of `Feature` has a `case` in `has`, which answers from the
location the table lists for it. -/
theorem has_eq_location (self : IsX86Feat) (cpuid : Cpuid) :
    ∀ t, t < 122 → has self cpuid t = (location t).map (fun loc => loc.eval self cpuid) := by
  simp only [Nat.forall_lt_succ, Nat.not_lt_zero, IsEmpty.forall_iff, implies_true, true_and]
  repeat' apply And.intro
  all_goals rfl

theorem location_isSome : ∀ t, t < 122 → (location t).isSome = true := by
  decide

theorem location_bit_lt : ∀ t, t < 122 → ∀ loc ∈ location t, loc.bit < 32 := by
  decide

theorem location_ungated :
    ∀ t, t < 122 →
      t ∉ [Feature.PSN, Feature.MPX, Feature.ADX, Feature.PT, Feature.MAWAU, Feature.SGX_LC] →
      ∀ loc ∈ location t, loc.intel_only = false := by
  decide

theorem location_table_pairwise :
    (location_table.map (fun l => (l.idx, l.reg, l.bit))).enum.Pairwise
      (fun a b => a.2 = b.2 → a.1 = Feature.PQM ∧ b.1 = Feature.RDT_M) := by
  decide

theorem location_table_length : location_table.length = 122 := by
  decide

theorem location_lt (f g : Nat) (hfg : f < g) (hg : g < 122)
    (h : (location f).map (fun l => (l.idx, l.reg, l.bit)) =
        (location g).map (fun l => (l.idx, l.reg, l.bit))) :
    f = Feature.PQM ∧ g = Feature.RDT_M := by
  have hlen : (location_table.map (fun l => (l.idx, l.reg, l.bit))).enum.length = 122 := by
    rw [List.enum_length, List.length_map, location_table_length]
  have hp := List.pairwise_iff_getElem.1 location_table_pairwise f g
    (by rw [hlen]; omega) (by rw [hlen]; omega) hfg
  simp only [List.getElem_enum, List.getElem_map] at hp
  apply hp
  have hf' : f < location_table.length := by rw [location_table_length]; omega
  have hg' : g < location_table.length := by rw [location_table_length]; omega
  simp only [location, List.get?_eq_getElem?, List.getElem?_eq_getElem hf',
    List.getElem?_eq_getElem hg', Option.map_some', Option.some.injEq] at h
  exact h

theorem location_injective :
    ∀ f, f < 122 → ∀ g, g < 122 → f ≠ g →
      (location f).map (fun l => (l.idx, l.reg, l.bit)) =
        (location g).map (fun l => (l.idx, l.reg, l.bit)) →
      (f = Feature.PQM ∧ g = Feature.RDT_M) ∨ (f = Feature.RDT_M ∧ g = Feature.PQM) := by
  intro f hf g hg hne h
  rcases Nat.lt_or_gt_of_ne hne with hlt | hgt
  · exact Or.inl (location_lt f g hlt hg h)
  · have := location_lt g f hgt hf h.symm
    exact Or.inr ⟨this.2, this.1⟩

/-- On the snapshot whose only set bit is at one place, with the vendor Intel, a
location answers true exactly when it is that place. -/
theorem eval_snapshot_bit (loc : FeatureLocation) (i : Fin 3) (r : Reg) (b : Nat)
    (hb : loc.bit < 32) :
    loc.eval (snapshot_bit i r b) cpuid_intel =
      decide (loc.idx = i ∧ loc.reg = r ∧ loc.bit = b) := by
  have hv : is_vendor_intel cpuid_intel = true := by decide
  have hcheck : loc.eval (snapshot_bit i r b) cpuid_intel =
      (((snapshot_bit i r b).regs loc.idx).get loc.reg).testBit loc.bit := by
    unfold FeatureLocation.eval
    rw [hv, check_eq_testBit _ _ hb]
    simp
  rw [hcheck]
  obtain ⟨li, lr, lb, lg⟩ := loc
  simp only [snapshot_bit]
  by_cases hi : li = i
  · subst hi
    cases lr <;> cases r <;>
      simp [CpuidRegisters.get, Nat.testBit_two_pow, Nat.zero_testBit, eq_comm]
  · cases lr <;> simp [hi, CpuidRegisters.get, Nat.zero_testBit]

/-- A value past the last enumerator, which only a cast can produce, reaches the
`default:` branch. -/
theorem has_default (self : IsX86Feat) (cpuid : Cpuid) :
    has self cpuid (Feature.PKS + 1) = none := rfl

/-! ## Claims about the feature table -/

/-- C6: for each Intel-gated feature (PSN, MPX, ADX, PT, MAWAU, SGX_LC) and every
snapshot and processor, `has` returns the conjunction of `is_vendor_intel` and the
feature's bit: false whenever the vendor is not Intel, whatever the bit, and the
value of the bit when the vendor is Intel. -/
theorem has_intel_gated (self : IsX86Feat) (cpuid : Cpuid) :
    has self cpuid Feature.PSN =
      some (is_vendor_intel cpuid && (self.regs IDX0).edx.testBit 18) ∧
    has self cpuid Feature.MPX =
      some (is_vendor_intel cpuid && (self.regs IDX2).ebx.testBit 14) ∧
    has self cpuid Feature.ADX =
      some (is_vendor_intel cpuid && (self.regs IDX2).ebx.testBit 19) ∧
    has self cpuid Feature.PT =
      some (is_vendor_intel cpuid && (self.regs IDX2).ebx.testBit 25) ∧
    has self cpuid Feature.MAWAU =
      some (is_vendor_intel cpuid && (self.regs IDX2).ecx.testBit 17) ∧
    has self cpuid Feature.SGX_LC =
      some (is_vendor_intel cpuid && (self.regs IDX2).ecx.testBit 30) := by
  have h : ∀ (r b : Nat), b < 32 →
      (if is_vendor_intel cpuid = true then check r b else false) =
        (is_vendor_intel cpuid && r.testBit b) := by
    intro r b hb
    rw [check_eq_testBit r b hb]
    cases is_vendor_intel cpuid <;> simp
  refine ⟨?_, ?_, ?_, ?_, ?_, ?_⟩
  · exact (congrArg some (h _ 18 (by norm_num)))
  · exact (congrArg some (h _ 14 (by norm_num)))
  · exact (congrArg some (h _ 19 (by norm_num)))
  · exact (congrArg some (h _ 25 (by norm_num)))
  · exact (congrArg some (h _ 17 (by norm_num)))
  · exact (congrArg some (h _ 30 (by norm_num)))

/-- C7: for every enumerator of `Feature` (the values from `FPU` to `PKS`), every
snapshot and every processor, `has` returns a boolean: it does not reach the
`default:` branch. -/
theorem has_total (self : IsX86Feat) (cpuid : Cpuid) (t : Nat) (ht : t ≤ Feature.PKS) :
    ∃ b : Bool, has self cpuid t = some b := by
  have ht1 : t < 122 := by simp only [Feature.PKS] at ht; omega
  rw [has_eq_location self cpuid t ht1]
  have h := location_isSome t ht1
  cases hl : location t with
  | none => rw [hl] at h; simp at h
  | some loc => exact ⟨loc.eval self cpuid, rfl⟩

/-- C7, at the enumerator `MAWAU` on an AMD processor with the snapshots of a
processor that reports nothing. -/
theorem has_total_witness :
    Feature.MAWAU ≤ Feature.PKS ∧
      ∃ b : Bool, has (new cpuid_amd) cpuid_amd Feature.MAWAU = some b :=
  ⟨by decide, has_total (new cpuid_amd) cpuid_amd Feature.MAWAU (by decide)⟩

end IsX86Feat

namespace IsX86Feat

/-- C8: for all 32-bit leaf-0 register values, `is_vendor_intel` is true exactly
when the twelve bytes read from EBX, EDX, ECX in little-endian order spell
`GenuineIntel`; `is_vendor_amd` is true exactly when they do not; so exactly one of
the two holds. -/
theorem vendor_classification (cpuid : Cpuid)
    (hb : (cpuid 0).ebx < 2 ^ 32) (hc : (cpuid 0).ecx < 2 ^ 32) (hd : (cpuid 0).edx < 2 ^ 32) :
    (is_vendor_intel cpuid = true ↔ vendor_bytes (cpuid 0) = GENUINE_INTEL) ∧
    (is_vendor_amd cpuid = true ↔ vendor_bytes (cpuid 0) ≠ GENUINE_INTEL) ∧
    ((is_vendor_intel cpuid = true ∧ is_vendor_amd cpuid = false) ∨
      (is_vendor_intel cpuid = false ∧ is_vendor_amd cpuid = true)) := by
  have hG : GENUINE_INTEL = [71, 101, 110, 117, 105, 110, 101, 73, 110, 116, 101, 108] := by
    decide
  have h1 : is_vendor_intel cpuid = true ↔ vendor_bytes (cpuid 0) = GENUINE_INTEL := by
    rw [hG]
    simp only [is_vendor_intel, vendor_bytes, le_bytes, Bool.and_eq_true, beq_iff_eq,
      List.cons_append, List.nil_append, List.cons.injEq, and_true]
    constructor
    · rintro ⟨⟨e1, e2⟩, e3⟩
      rw [e1, e2, e3]
      decide
    · intro h
      obtain ⟨a0, a1, a2, a3, b0, b1, b2, b3, c0, c1, c2, c3⟩ := h
      refine ⟨⟨?_, ?_⟩, ?_⟩ <;> omega
  refine ⟨h1, ?_, ?_⟩
  · rw [Ne, ← h1]
    simp [is_vendor_amd]
  · cases hv : is_vendor_intel cpuid <;> simp [is_vendor_amd, hv]

/-- C8, at a processor whose leaf 0 spells `GenuineIntel` (classified Intel, not
AMD). -/
theorem vendor_classification_witness :
    ((cpuid_intel 0).ebx < 2 ^ 32 ∧ (cpuid_intel 0).ecx < 2 ^ 32 ∧
      (cpuid_intel 0).edx < 2 ^ 32) ∧
    vendor_bytes (cpuid_intel 0) = GENUINE_INTEL ∧
    ((is_vendor_intel cpuid_intel = true ↔ vendor_bytes (cpuid_intel 0) = GENUINE_INTEL) ∧
     (is_vendor_amd cpuid_intel = true ↔ vendor_bytes (cpuid_intel 0) ≠ GENUINE_INTEL) ∧
     ((is_vendor_intel cpuid_intel = true ∧ is_vendor_amd cpuid_intel = false) ∨
       (is_vendor_intel cpuid_intel = false ∧ is_vendor_amd cpuid_intel = true))) :=
  ⟨by decide, by decide,
    vendor_classification cpuid_intel (by decide) (by decide) (by decide)⟩

/-- C9: `has` answers `PQM` and `RDT_M` alike on every snapshot and processor; and
for two distinct enumerators of `Feature`, `has` reads the same place (same entry of
`regs`, same register, same bit) exactly when they are `PQM` and `RDT_M`, and it
gives the same answer on every snapshot and processor exactly in that case: any
other two enumerators are told apart by some snapshot. -/
theorem has_alias_iff :
    (∀ (self : IsX86Feat) (cpuid : Cpuid),
      has self cpuid Feature.PQM = has self cpuid Feature.RDT_M) ∧
    ∀ f g : Nat, f ≤ Feature.PKS → g ≤ Feature.PKS → f ≠ g →
      (((location f).map (fun l => (l.idx, l.reg, l.bit)) =
          (location g).map (fun l => (l.idx, l.reg, l.bit)) ↔
        (f = Feature.PQM ∧ g = Feature.RDT_M) ∨ (f = Feature.RDT_M ∧ g = Feature.PQM)) ∧
       ((∀ (self : IsX86Feat) (cpuid : Cpuid), has self cpuid f = has self cpuid g) ↔
        (f = Feature.PQM ∧ g = Feature.RDT_M) ∨ (f = Feature.RDT_M ∧ g = Feature.PQM))) := by
  have hpair : ∀ (self : IsX86Feat) (cpuid : Cpuid),
      has self cpuid Feature.PQM = has self cpuid Feature.RDT_M := fun _ _ => rfl
  refine ⟨hpair, ?_⟩
  intro f g hf hg hne
  have hf1 : f < 122 := by simp only [Feature.PKS] at hf; omega
  have hg1 : g < 122 := by simp only [Feature.PKS] at hg; omega
  constructor
  · constructor
    · exact location_injective f hf1 g hg1 hne
    · rintro (⟨rfl, rfl⟩ | ⟨rfl, rfl⟩) <;> decide
  · constructor
    · intro hall
      apply location_injective f hf1 g hg1 hne
      have sf := location_isSome f hf1
      have sg := location_isSome g hg1
      cases hlf : location f with
      | none => rw [hlf] at sf; simp at sf
      | some lf =>
        cases hlg : location g with
        | none => rw [hlg] at sg; simp at sg
        | some lg =>
          have bf : lf.bit < 32 := location_bit_lt f hf1 lf (by rw [hlf]; simp)
          have bg : lg.bit < 32 := location_bit_lt g hg1 lg (by rw [hlg]; simp)
          have h := hall (snapshot_bit lf.idx lf.reg lf.bit) cpuid_intel
          rw [has_eq_location _ _ f hf1, has_eq_location _ _ g hg1, hlf, hlg] at h
          simp only [Option.map_some', Option.some.injEq] at h
          rw [eval_snapshot_bit lf _ _ _ bf, eval_snapshot_bit lg _ _ _ bg] at h
          simp only [and_self, decide_True] at h
          have h2 := of_decide_eq_true h.symm
          simp only [Option.map_some', Option.some.injEq, Prod.mk.injEq]
          exact ⟨h2.1.symm, h2.2.1.symm, h2.2.2.symm⟩
    · rintro (⟨rfl, rfl⟩ | ⟨rfl, rfl⟩)
      · exact hpair
      · exact fun self cpuid => (hpair self cpuid).symm

/-- C9, at the distinct enumerators `FPU` and `VME`: they read different places and
some snapshot tells them apart. -/
theorem has_alias_iff_witness :
    (Feature.FPU ≤ Feature.PKS ∧ Feature.VME ≤ Feature.PKS ∧ Feature.FPU ≠ Feature.VME) ∧
    ¬ (∀ (self : IsX86Feat) (cpuid : Cpuid),
        has self cpuid Feature.FPU = has self cpuid Feature.VME) :=
  ⟨by decide, fun h =>
    absurd ((has_alias_iff.2 Feature.FPU Feature.VME (by decide) (by decide)
      (by decide)).2.1 h) (by decide)⟩

/-- C10: for every enumerator of `Feature` other than the six Intel-gated ones there
is one place (entry of `regs`, register, bit below 32) such that `has` returns the
value of that bit on every snapshot and every processor; hence the answer is the
same for an Intel and a non-Intel processor and the same for two snapshots that
agree on that bit, whatever their other bits. -/
theorem has_ungated (t : Nat) (ht : t ≤ Feature.PKS)
    (hg : t ∉ [Feature.PSN, Feature.MPX, Feature.ADX, Feature.PT, Feature.MAWAU,
      Feature.SGX_LC]) :
    ∃ (i : Fin 3) (r : Reg) (b : Nat), b < 32 ∧
      (∀ (self : IsX86Feat) (cpuid : Cpuid),
        has self cpuid t = some (((self.regs i).get r).testBit b)) ∧
      (∀ (self self' : IsX86Feat) (cpuid cpuid' : Cpuid),
        ((self.regs i).get r).testBit b = ((self'.regs i).get r).testBit b →
        has self cpuid t = has self' cpuid' t) := by
  have ht1 : t < 122 := by simp only [Feature.PKS] at ht; omega
  have hs := location_isSome t ht1
  cases hl : location t with
  | none => rw [hl] at hs; simp at hs
  | some loc =>
    have hb : loc.bit < 32 := location_bit_lt t ht1 loc (by rw [hl]; simp)
    have hu : loc.intel_only = false := location_ungated t ht1 hg loc (by rw [hl]; simp)
    have key : ∀ (self : IsX86Feat) (cpuid : Cpuid),
        has self cpuid t = some (((self.regs loc.idx).get loc.reg).testBit loc.bit) := by
      intro self cpuid
      rw [has_eq_location self cpuid t ht1, hl]
      simp [FeatureLocation.eval, hu, check_eq_testBit _ _ hb]
    refine ⟨loc.idx, loc.reg, loc.bit, hb, key, ?_⟩
    intro self self' cpuid cpuid' h
    rw [key self cpuid, key self' cpuid', h]

/-- C10, at the enumerator `AVX2`. -/
theorem has_ungated_witness :
    Feature.AVX2 ≤ Feature.PKS ∧
    ∃ (i : Fin 3) (r : Reg) (b : Nat), b < 32 ∧
      (∀ (self : IsX86Feat) (cpuid : Cpuid),
        has self cpuid Feature.AVX2 = some (((self.regs i).get r).testBit b)) ∧
      (∀ (self self' : IsX86Feat) (cpuid cpuid' : Cpuid),
        ((self.regs i).get r).testBit b = ((self'.regs i).get r).testBit b →
        has self cpuid Feature.AVX2 = has self' cpuid' Feature.AVX2) :=
  ⟨by decide, has_ungated Feature.AVX2 (by decide) (by decide)⟩

end IsX86Feat

namespace x86v

/-! ## Lowercase conversion -/

theorem char_toNat_ofNat (n : Nat) (h : n < 0xd800) : (Char.ofNat n).toNat = n := by
  have hv : n.isValidChar := Or.inl h
  simp [Char.ofNat, hv, Char.toNat, Char.ofNatAux]
  rfl

theorem tolower_upper (c : Char) (h1 : 'A' ≤ c) (h2 : c ≤ 'Z') :
    (tolower c).toNat = c.toNat + 32 := by
  have a1 : 65 ≤ c.toNat := h1
  have a2 : c.toNat ≤ 90 := h2
  rw [tolower, if_pos ⟨h1, h2⟩]
  exact char_toNat_ofNat _ (by omega)

theorem tolower_ne_nul (c : Char) (h : c ≠ NUL) : tolower c ≠ NUL := by
  unfold tolower
  split
  · rename_i hc
    intro e
    have := tolower_upper c hc.1 hc.2
    rw [tolower, if_pos hc, e] at this
    have z : NUL.toNat = 0 := by decide
    omega
  · exact h

theorem cstring_append_nul (cs rest : List Char) (h : NUL ∉ cs) :
    cstring (cs ++ NUL :: rest) = cs := by
  induction cs with
  | nil => simp [cstring]
  | cons c cs ih =>
    have hc : c ≠ NUL := fun e => h (by simp [e])
    have hcs : NUL ∉ cs := fun m => h (List.mem_cons_of_mem _ m)
    have := ih hcs
    simp only [cstring] at this ⊢
    rw [List.cons_append, List.takeWhile_cons_of_pos (by simpa using hc), this]

/-- A string followed by its terminator splits at the first `NUL`. -/
theorem cstring_split (s : List Char) :
    ∃ rest, s ++ [NUL] = cstring s ++ NUL :: rest ∧ NUL ∉ cstring s := by
  induction s with
  | nil => exact ⟨[], by simp [cstring], by simp [cstring]⟩
  | cons c s ih =>
    by_cases hc : c = NUL
    · subst hc
      exact ⟨s ++ [NUL], by simp [cstring], by simp [cstring]⟩
    · obtain ⟨rest, e, hn⟩ := ih
      refine ⟨rest, ?_, ?_⟩
      · simp only [cstring] at e ⊢
        rw [List.takeWhile_cons_of_pos (by simpa using hc), List.cons_append, e,
          List.cons_append]
      · simp only [cstring] at hn ⊢
        rw [List.takeWhile_cons_of_pos (by simpa using hc)]
        intro m
        rcases List.mem_cons.1 m with h | h
        · exact hc h.symm
        · exact hn h

theorem conv_to_lowercase_loop_eq (cs rest pre mid post : List Char) (h : NUL ∉ cs)
    (hlen : mid.length = cs.length) :
    conv_to_lowercase_loop (cs ++ NUL :: rest) pre.length (pre ++ mid ++ post) =
      pre ++ cs.map tolower ++ post := by
  induction cs generalizing pre mid with
  | nil =>
    have : mid = [] := List.length_eq_zero.1 (by simpa using hlen)
    subst this
    simp [conv_to_lowercase_loop]
  | cons c cs ih =>
    have hc : c ≠ NUL := fun e => h (by simp [e])
    have hcs : NUL ∉ cs := fun m => h (List.mem_cons_of_mem _ m)
    cases mid with
    | nil => simp at hlen
    | cons m mid =>
      have hl : mid.length = cs.length := by simpa using hlen
      have hset : (pre ++ m :: mid ++ post).set pre.length (tolower c) =
          (pre ++ [tolower c]) ++ mid ++ post := by
        simp [List.set_append]
      rw [List.cons_append, conv_to_lowercase_loop, if_neg hc, hset]
      have := ih (pre ++ [tolower c]) mid hcs hl
      rw [List.length_append, List.length_singleton] at this
      rw [this]
      simp

/-- The function `conv_to_lowercase` on an object that holds the characters `cs`
and then a terminator. -/
theorem conv_to_lowercase_eq (cs rest : List Char) (h : NUL ∉ cs) :
    conv_to_lowercase (cs ++ NUL :: rest) = cs.map tolower ++ [NUL] := by
  have := conv_to_lowercase_loop_eq cs rest [] cs [NUL] h rfl
  simpa [conv_to_lowercase, strdup, cstring_append_nul cs rest h] using this

theorem cstring_map_tolower (cs rest : List Char) (h : NUL ∉ cs) :
    cstring (cs.map tolower ++ NUL :: rest) = cs.map tolower := by
  apply cstring_append_nul
  intro m
  obtain ⟨c, hc, e⟩ := List.mem_map.1 m
  exact tolower_ne_nul c (fun e2 => h (e2 ▸ hc)) e

/-- What the print loop writes for one name. -/
theorem fprintf_name (name : String) (c : Char) :
    fprintf_s_c (conv_to_lowercase (string_object name)) c =
      (cstring name.toList).map tolower ++ [c] := by
  obtain ⟨rest, e, hn⟩ := cstring_split name.toList
  rw [string_object, e, conv_to_lowercase_eq _ _ hn, fprintf_s_c, cstring_map_tolower _ _ hn]

end x86v

namespace x86v

/-! ## Printing -/

theorem names_text_cons (name : String) (rest : List String) :
    names_text (name :: rest) =
      (cstring name.toList).map tolower ++
        [if rest = [] then NUL else SPACE] ++ names_text rest := by
  cases rest with
  | nil => simp [names_text]
  | cons r rs => simp [names_text]

theorem print_loop_eq (a : tiny_alist) (l : List String) (tail : List (Option String))
    (i : Nat) (hdrop : a.p.drop i = l.map some ++ tail) (hidx : i + l.length = a.idx)
    (hlt : a.idx < SIZE_MOD) :
    CPU_TINY_ALIST_PRINT_FOREACH_loop a l.length i = some (names_text l) := by
  induction l generalizing i with
  | nil => simp [CPU_TINY_ALIST_PRINT_FOREACH_loop, names_text]
  | cons name rest ih =>
    have hget : a.p.get? i = some (some name) := by
      have h0 : (a.p.drop i)[0]? = some (some name) := by rw [hdrop]; simp
      rw [List.getElem?_drop] at h0
      simpa [List.get?_eq_getElem?] using h0
    have hdrop1 : a.p.drop (i + 1) = rest.map some ++ tail := by
      have : a.p.drop (i + 1) = (a.p.drop i).drop 1 := by
        rw [List.drop_drop, Nat.add_comm]
      rw [this, hdrop]
      rfl
    have hidx1 : i + 1 + rest.length = a.idx := by
      rw [List.length_cons] at hidx; omega
    have hlast : (i = (a.idx + SIZE_MOD - 1) % SIZE_MOD) ↔ rest = [] := by
      have hm : (a.idx + SIZE_MOD - 1) % SIZE_MOD = a.idx - 1 := by
        simp only [SIZE_MOD] at hlt ⊢
        omega
      rw [hm, ← List.length_eq_zero]
      omega
    rw [List.length_cons, CPU_TINY_ALIST_PRINT_FOREACH_loop, hget]
    simp only []
    rw [ih (i + 1) hdrop1 hidx1, fprintf_name, names_text_cons]
    simp only [hlast, Option.map_some', List.append_assoc]

/-- The print loop on a well-formed list writes the text of its elements. -/
theorem print_foreach_eq (a : tiny_alist) (names : List String) (hwf : a.wf)
    (helems : a.elems = names.map some) :
    CPU_TINY_ALIST_PRINT_FOREACH a = some (names_text names) := by
  obtain ⟨h1, _, _, h4, h5, h6⟩ := hwf
  simp only [SIZEOF_PTR, SIZE_MOD] at h1 h4 h5 h6
  have hle : a.idx ≤ a.p.length := by rw [h6]; omega
  have hlen : names.length = a.idx := by
    have := congrArg List.length helems
    simp only [tiny_alist.elems, List.length_take, List.length_map] at this
    omega
  have hdrop : a.p.drop 0 = names.map some ++ a.p.drop a.idx := by
    rw [List.drop_zero, ← helems, tiny_alist.elems, List.take_append_drop]
  have := print_loop_eq a names (a.p.drop a.idx) 0 hdrop (by omega)
    (by simp only [SIZE_MOD]; omega)
  rw [hlen] at this
  exact this

theorem tiny_alist_do_reset_wf (a : tiny_alist) (hwf : a.wf) :
    (tiny_alist_do_reset a).wf ∧ (tiny_alist_do_reset a).idx = 0 ∧
      (tiny_alist_do_reset a).elems = [] := by
  obtain ⟨h1, h2, h3, h4, h5, h6⟩ := hwf
  refine ⟨⟨?_, h2, h3, ?_, h5, h6⟩, rfl, ?_⟩
  · simp [tiny_alist_do_reset]
  · simp [tiny_alist_do_reset]
  · simp [tiny_alist_do_reset, tiny_alist.elems]

theorem tiny_alist_do_init_wf (a : tiny_alist) :
    (tiny_alist_do_init a).wf ∧ (tiny_alist_do_init a).idx = 0 ∧
      (tiny_alist_do_init a).elems = [] := by
  have e : tiny_alist_do_init a = tiny_alist_do_init ⟨[], 0, 0, 0, 0⟩ := rfl
  rw [e]
  exact ⟨by decide, rfl, rfl⟩

/-- One level of `cpu_print_version_levels` on an empty well-formed list: the list
after the pushes prints as the text of the pushed names, and its reset is again an
empty well-formed list. -/
theorem level_step (a : tiny_alist) (names : List String) (hwf : a.wf) (h0 : a.idx = 0)
    (hlen : names.length ≤ 9) :
    CPU_TINY_ALIST_PRINT_FOREACH (push_all a names) = some (names_text names) ∧
    (tiny_alist_do_reset (push_all a names)).wf ∧
    (tiny_alist_do_reset (push_all a names)).idx = 0 := by
  obtain ⟨w1, _, w3⟩ := push_all_wf names a hwf (by rw [h0]; omega)
  have he : a.elems = [] := by simp [tiny_alist.elems, h0]
  rw [he, List.nil_append] at w3
  obtain ⟨r1, r2, _⟩ := tiny_alist_do_reset_wf _ w1
  exact ⟨print_foreach_eq _ names w1 w3, r1, r2⟩

/-! ## Independence of the level functions from the list and from other registers -/

theorem level_ret_congr (cpuid cpuid' : Cpuid) (a a' : tiny_alist) :
    ((cpuid 1).edx = (cpuid' 1).edx →
      (cpu_detect_version_level_v1 cpuid a).2 = (cpu_detect_version_level_v1 cpuid' a').2) ∧
    ((cpuid 1).ecx = (cpuid' 1).ecx →
      (cpu_detect_version_level_v2 cpuid a).2 = (cpu_detect_version_level_v2 cpuid' a').2) ∧
    ((cpuid 1).ecx = (cpuid' 1).ecx → (cpuid 7).ebx = (cpuid' 7).ebx →
      (cpuid 0x80000001).ecx = (cpuid' 0x80000001).ecx →
      (cpu_detect_version_level_v3 cpuid a).2 = (cpu_detect_version_level_v3 cpuid' a').2) ∧
    ((cpuid 7).ebx = (cpuid' 7).ebx →
      (cpu_detect_version_level_v4 cpuid a).2 = (cpu_detect_version_level_v4 cpuid' a').2) := by
  obtain ⟨r1, r2, r3, r4⟩ := level_ret cpuid a
  obtain ⟨s1, s2, s3, s4⟩ := level_ret cpuid' a'
  refine ⟨?_, ?_, ?_, ?_⟩
  · intro h
    rw [r1, s1]
    simp only [v1_sum_iff, h]
  · intro h
    rw [r2, s2]
    simp only [v2_sum_iff, h]
  · intro h1 h2 h3
    rw [r3, s3]
    simp only [v3_sum_iff, h1, h2, h3]
  · intro h
    rw [r4, s4]
    simp only [v4_sum_iff, h]

end x86v

namespace x86v

/-! ## Call sequences on the list -/

/-- The capacity bookkeeping of a push on a well-formed state that holds fewer than
`2 ^ 60 - 1` elements: the decrement of `extra_len` does not wrap, and the slot the
push stores to lies inside the allocated block. -/
theorem do_alloc_bounds (a : tiny_alist) (hwf : a.wf) (hidx : a.idx + 1 < 2 ^ 60) :
    (do_alloc 2 a).idx = a.idx ∧ (do_alloc 2 a).total_len = a.total_len ∧
    (do_alloc 2 a).idx < (do_alloc 2 a).p.length ∧
    (do_alloc 2 a).extra_len ≤ (do_alloc 2 a).alloc ∧
    (do_alloc 2 a).total_len + SIZEOF_PTR ≤ (do_alloc 2 a).alloc ∧
    (¬ a.extra_len ≤ a.total_len → SIZEOF_PTR ≤ a.extra_len) := by
  obtain ⟨h1, h2, h3, h4, h5, h6⟩ := hwf
  simp only [SIZEOF_PTR, SIZE_MOD] at h1 h2 h3 h4 h5 h6
  obtain ⟨k, hk⟩ := h2
  have hmod : (a.total_len + 8) * 2 % 2 ^ 64 = 16 * a.idx + 16 := by
    rw [h1]; omega
  rw [do_alloc_two]
  split
  · simp only [SIZEOF_PTR, SIZE_MOD, hmod]
    refine ⟨trivial, trivial, ?_, le_refl _, ?_, ?_⟩
    · rw [realloc_block_length]; simp only [SIZEOF_PTR]; omega
    · omega
    · intro _; omega
  · rename_i hc
    simp only [SIZEOF_PTR, SIZE_MOD, not_or, not_le] at hc
    obtain ⟨hc1, hc2⟩ := hc
    have hsub : (a.extra_len + 2 ^ 64 - 8) % 2 ^ 64 = a.extra_len - 8 := by omega
    rw [hsub] at hc2
    simp only [SIZEOF_PTR, SIZE_MOD, hsub]
    refine ⟨trivial, trivial, ?_, ?_, ?_, ?_⟩
    · rw [h6]; omega
    · omega
    · omega
    · intro _; omega

/-- The content of the list after a sequence of calls, as a fold over the calls. -/
theorem live_elems_fold (ops : List alist_op) (a : tiny_alist) (l : List String)
    (hwf : a.wf) (hel : a.elems = l.map some) (hidx : a.idx + ops.length < 2 ^ 60) :
    (ops.foldl alist_op.apply a).wf ∧
    (ops.foldl alist_op.apply a).idx ≤ a.idx + ops.length ∧
    (ops.foldl alist_op.apply a).elems =
      (ops.foldl
        (fun l op =>
          match op with
          | alist_op.init => []
          | alist_op.push elem => l ++ [elem]
          | alist_op.reset => []) l).map some := by
  induction ops generalizing a l with
  | nil => exact ⟨hwf, by simp, by simpa using hel⟩
  | cons op ops ih =>
    rw [List.length_cons] at hidx
    rw [List.foldl_cons, List.foldl_cons]
    cases op with
    | init =>
      obtain ⟨w, i, e⟩ := tiny_alist_do_init_wf a
      obtain ⟨r1, r2, r3⟩ := ih (tiny_alist_do_init a) [] w (by simpa using e)
        (by rw [i]; omega)
      refine ⟨r1, ?_, r3⟩
      rw [i] at r2
      simp only [alist_op.apply, List.length_cons]
      omega
    | push elem =>
      obtain ⟨w, i, e⟩ := tiny_alist_do_push_back_wf a elem hwf (by omega)
      obtain ⟨r1, r2, r3⟩ := ih (tiny_alist_do_push_back a elem) (l ++ [elem]) w
        (by rw [e, hel]; simp) (by rw [i]; omega)
      refine ⟨r1, ?_, r3⟩
      rw [i] at r2
      simp only [alist_op.apply, List.length_cons]
      omega
    | reset =>
      obtain ⟨w, i, e⟩ := tiny_alist_do_reset_wf a hwf
      obtain ⟨r1, r2, r3⟩ := ih (tiny_alist_do_reset a) [] w (by simpa using e)
        (by rw [i]; omega)
      refine ⟨r1, ?_, r3⟩
      rw [i] at r2
      simp only [alist_op.apply, List.length_cons]
      omega

/-- The state after `tiny_alist_do_init` and fewer than `2 ^ 60` further calls is
well formed and holds the elements pushed since the last init or reset. -/
theorem run_ops_wf (ops : List alist_op) (h : ops.length < 2 ^ 60) :
    (run_ops ops).wf ∧ (run_ops ops).idx ≤ ops.length ∧
    (run_ops ops).elems = (live_elems ops).map some := by
  obtain ⟨w, i, e⟩ := tiny_alist_do_init_wf ⟨[], 0, 0, 0, 0⟩
  have := live_elems_fold ops (tiny_alist_do_init ⟨[], 0, 0, 0, 0⟩) [] w (by simpa using e)
    (by rw [i]; omega)
  rw [i, Nat.zero_add] at this
  exact this

end x86v

namespace x86v

/-! ## Claims about printing, `main` and the list -/

theorem matched_length (cpuid : Cpuid) :
    (matched_v1 cpuid).length ≤ 9 ∧ (matched_v2 cpuid).length ≤ 9 ∧
    (matched_v3 cpuid).length ≤ 9 ∧ (matched_v4 cpuid).length ≤ 9 := by
  refine ⟨?_, ?_, ?_, ?_⟩
  · rw [matched_v1, List.length_map]
    exact le_trans (List.length_filter_le _ _) (by decide)
  · rw [matched_v2, List.length_map]
    exact le_trans (List.length_filter_le _ _) (by decide)
  · rw [matched_v3, List.length_map]
    exact le_trans (List.length_filter_le _ _) (by simp [v3_tests])
  · rw [matched_v4, List.length_map]
    exact le_trans (List.length_filter_le _ _) (by decide)

/-- The text `cpu_print_version_levels` writes on an empty well-formed list: one
block per level in the order v1, v2, v3, v4, empty when the level function does not
return its constant, and otherwise the header, the text of the names this level
matched, and `")\n"`. -/
theorem print_levels_text (cpuid : Cpuid) (alist : tiny_alist) (hwf : alist.wf)
    (h0 : alist.idx = 0) :
    (cpu_print_version_levels cpuid alist).2 = some (
      (if (cpu_detect_version_level_v1 cpuid alist).2 = 132 then
        "x86-64 v1 supported (".toList ++ names_text (matched_v1 cpuid) ++ ")\n".toList
       else []) ++
      (if (cpu_detect_version_level_v2 cpuid alist).2 = 84 then
        "x86-64 v2 supported (".toList ++ names_text (matched_v2 cpuid) ++ ")\n".toList
       else []) ++
      (if (cpu_detect_version_level_v3 cpuid alist).2 = 139 then
        "x86-64 v3 supported (".toList ++ names_text (matched_v3 cpuid) ++ ")\n".toList
       else []) ++
      (if (cpu_detect_version_level_v4 cpuid alist).2 = 122 then
        "x86-64 v4 supported\n".toList ++ names_text (matched_v4 cpuid) ++ ")\n".toList
       else [])) := by
  obtain ⟨n1, n2, n3, n4⟩ := matched_length cpuid
  obtain ⟨p1, w1, i1⟩ := level_step alist (matched_v1 cpuid) hwf h0 n1
  obtain ⟨p2, w2, i2⟩ := level_step _ (matched_v2 cpuid) w1 i1 n2
  obtain ⟨p3, w3, i3⟩ := level_step _ (matched_v3 cpuid) w2 i2 n3
  obtain ⟨p4, _, _⟩ := level_step _ (matched_v4 cpuid) w3 i3 n4
  have e1 : ∀ a, (cpu_detect_version_level_v1 cpuid a).1 = push_all a (matched_v1 cpuid) :=
    fun a => v1_list cpuid a
  have e2 : ∀ a, (cpu_detect_version_level_v2 cpuid a).1 = push_all a (matched_v2 cpuid) :=
    fun a => v2_list cpuid a
  have e3 : ∀ a, (cpu_detect_version_level_v3 cpuid a).1 = push_all a (matched_v3 cpuid) :=
    fun a => v3_list cpuid a
  have e4 : ∀ a, (cpu_detect_version_level_v4 cpuid a).1 = push_all a (matched_v4 cpuid) :=
    fun a => v4_list cpuid a
  have c2 : ∀ a, (cpu_detect_version_level_v2 cpuid a).2 =
      (cpu_detect_version_level_v2 cpuid alist).2 :=
    fun a => (level_ret_congr cpuid cpuid a alist).2.1 rfl
  have c3 : ∀ a, (cpu_detect_version_level_v3 cpuid a).2 =
      (cpu_detect_version_level_v3 cpuid alist).2 :=
    fun a => (level_ret_congr cpuid cpuid a alist).2.2.1 rfl rfl rfl
  have c4 : ∀ a, (cpu_detect_version_level_v4 cpuid a).2 =
      (cpu_detect_version_level_v4 cpuid alist).2 :=
    fun a => (level_ret_congr cpuid cpuid a alist).2.2.2 rfl
  simp only [cpu_print_version_levels, e1, e2, e3, e4, c2, c3, c4, p1, p2, p3, p4,
    CPU_VERSION_LEVEL_v1, CPU_VERSION_LEVEL_v2, CPU_VERSION_LEVEL_v3, CPU_VERSION_LEVEL_v4,
    Option.map_some', Nat.cast_ofNat]
  split <;> split <;> split <;> split <;> rfl

/-- C13: on an empty well-formed list (as `main` passes it) and for all register
values, `cpu_print_version_levels` writes the concatenation, in the order v1, v2,
v3, v4, of one block per level: nothing when the level function does not return
its constant, and otherwise the header of the level, the text of the names that
this level itself matched, and `")\n"`.  Names matched by another level, supported
or not, do not occur in a block. -/
theorem print_levels_output (cpuid : Cpuid) (alist : tiny_alist) (hwf : alist.wf)
    (h0 : alist.idx = 0) :
    (cpu_print_version_levels cpuid alist).2 = some (
      (if (cpu_detect_version_level_v1 cpuid alist).2 = 132 then
        "x86-64 v1 supported (".toList ++ names_text (matched_v1 cpuid) ++ ")\n".toList
       else []) ++
      (if (cpu_detect_version_level_v2 cpuid alist).2 = 84 then
        "x86-64 v2 supported (".toList ++ names_text (matched_v2 cpuid) ++ ")\n".toList
       else []) ++
      (if (cpu_detect_version_level_v3 cpuid alist).2 = 139 then
        "x86-64 v3 supported (".toList ++ names_text (matched_v3 cpuid) ++ ")\n".toList
       else []) ++
      (if (cpu_detect_version_level_v4 cpuid alist).2 = 122 then
        "x86-64 v4 supported\n".toList ++ names_text (matched_v4 cpuid) ++ ")\n".toList
       else [])) :=
  print_levels_text cpuid alist hwf h0

/-- C13, at the freshly initialised list and the processor that reports only the
AVX-512 bits: the three unsupported levels contribute nothing. -/
theorem print_levels_output_witness :
    (alist_fresh.wf ∧ alist_fresh.idx = 0) ∧
    (cpu_print_version_levels cpuid_v4_only alist_fresh).2 = some (
      (if (cpu_detect_version_level_v1 cpuid_v4_only alist_fresh).2 = 132 then
        "x86-64 v1 supported (".toList ++ names_text (matched_v1 cpuid_v4_only) ++
          ")\n".toList
       else []) ++
      (if (cpu_detect_version_level_v2 cpuid_v4_only alist_fresh).2 = 84 then
        "x86-64 v2 supported (".toList ++ names_text (matched_v2 cpuid_v4_only) ++
          ")\n".toList
       else []) ++
      (if (cpu_detect_version_level_v3 cpuid_v4_only alist_fresh).2 = 139 then
        "x86-64 v3 supported (".toList ++ names_text (matched_v3 cpuid_v4_only) ++
          ")\n".toList
       else []) ++
      (if (cpu_detect_version_level_v4 cpuid_v4_only alist_fresh).2 = 122 then
        "x86-64 v4 supported\n".toList ++ names_text (matched_v4 cpuid_v4_only) ++
          ")\n".toList
       else [])) :=
  ⟨by decide, print_levels_output cpuid_v4_only alist_fresh (by decide) (by decide)⟩

/-- C11: the value each level function returns is the same for any two processors
that agree on the registers the function reads, whatever the list passed in; and no
level presupposes another: on the processor that reports only the five AVX-512 bits
of leaf 7, `cpu_detect_version_level_v4` returns 122 while the functions for v1, v2
and v3 return `-1`, and `cpu_print_version_levels` writes the v4 text alone. -/
theorem levels_independent :
    (∀ (cpuid cpuid' : Cpuid) (a a' : tiny_alist),
      ((cpuid 1).edx = (cpuid' 1).edx →
        (cpu_detect_version_level_v1 cpuid a).2 = (cpu_detect_version_level_v1 cpuid' a').2) ∧
      ((cpuid 1).ecx = (cpuid' 1).ecx →
        (cpu_detect_version_level_v2 cpuid a).2 = (cpu_detect_version_level_v2 cpuid' a').2) ∧
      ((cpuid 1).ecx = (cpuid' 1).ecx → (cpuid 7).ebx = (cpuid' 7).ebx →
        (cpuid 0x80000001).ecx = (cpuid' 0x80000001).ecx →
        (cpu_detect_version_level_v3 cpuid a).2 = (cpu_detect_version_level_v3 cpuid' a').2) ∧
      ((cpuid 7).ebx = (cpuid' 7).ebx →
        (cpu_detect_version_level_v4 cpuid a).2 =
          (cpu_detect_version_level_v4 cpuid' a').2)) ∧
    ((cpu_detect_version_level_v4 cpuid_v4_only alist_fresh).2 = 122 ∧
     (cpu_detect_version_level_v1 cpuid_v4_only alist_fresh).2 = -1 ∧
     (cpu_detect_version_level_v2 cpuid_v4_only alist_fresh).2 = -1 ∧
     (cpu_detect_version_level_v3 cpuid_v4_only alist_fresh).2 = -1 ∧
     (cpu_print_version_levels cpuid_v4_only alist_fresh).2 =
       some ("x86-64 v4 supported\n".toList ++
         ("avx512-f avx512-bw avx512-cd avx512-dq avx512-vl".toList ++ [NUL]) ++
         ")\n".toList)) := by
  have c1 : (cpu_detect_version_level_v1 cpuid_v4_only alist_fresh).2 = -1 := by decide
  have c2 : (cpu_detect_version_level_v2 cpuid_v4_only alist_fresh).2 = -1 := by decide
  have c3 : (cpu_detect_version_level_v3 cpuid_v4_only alist_fresh).2 = -1 := by decide
  have c4 : (cpu_detect_version_level_v4 cpuid_v4_only alist_fresh).2 = 122 := by decide
  have t4 : names_text (matched_v4 cpuid_v4_only) =
      "avx512-f avx512-bw avx512-cd avx512-dq avx512-vl".toList ++ [NUL] := by decide
  refine ⟨fun cpuid cpuid' a a' => level_ret_congr cpuid cpuid' a a', c4, c1, c2, c3, ?_⟩
  rw [print_levels_text cpuid_v4_only alist_fresh (by decide) (by decide),
    c1, c2, c3, if_pos c4, t4]
  rfl

/-- C11, at two processors that agree on leaf-7 EBX and differ everywhere else:
`cpu_detect_version_level_v4` returns the same value on both. -/
theorem levels_independent_witness :
    (cpuid_v4_only 7).ebx = (cpuid_of ⟨1, 2, 3, 4⟩ (cpuid_v4_only 7) ⟨5, 6, 7, 8⟩ 7).ebx ∧
    (cpu_detect_version_level_v4 cpuid_v4_only alist_fresh).2 =
      (cpu_detect_version_level_v4
        (cpuid_of ⟨1, 2, 3, 4⟩ (cpuid_v4_only 7) ⟨5, 6, 7, 8⟩)
        (tiny_alist_do_push_back alist_fresh "x")).2 :=
  ⟨by decide,
    (levels_independent.1 cpuid_v4_only
      (cpuid_of ⟨1, 2, 3, 4⟩ (cpuid_v4_only 7) ⟨5, 6, 7, 8⟩) alist_fresh
      (tiny_alist_do_push_back alist_fresh "x")).2.2.2 (by decide)⟩

/-- C12: on the processor with every bit set and the freshly initialised list all
four levels are supported, and `cpu_print_version_levels` writes, for each of v1,
v2 and v3, the header, the lowercase names separated by single spaces, then a `NUL`
character, then `")\n"`; for v4 it writes `"x86-64 v4 supported\n"` with neither
space nor opening parenthesis, then the names and the `NUL` on a line of their own,
then `")\n"`. -/
theorem print_levels_all_set :
    (cpu_print_version_levels cpuid_all_set alist_fresh).2 =
      some (
        ("x86-64 v1 supported (".toList ++
          ("fpu cx8 sce cmov mmx fxsr sse sse2".toList ++ [NUL]) ++ ")\n".toList) ++
        ("x86-64 v2 supported (".toList ++
          ("cmpxchg16b popcnt sse3 sse4.1 sse4.2 ssse3".toList ++ [NUL]) ++ ")\n".toList) ++
        ("x86-64 v3 supported (".toList ++
          ("avx f16c fma movbe osxsave avx2 bmi1 bmi2 lzcnt".toList ++ [NUL]) ++
          ")\n".toList) ++
        ("x86-64 v4 supported\n".toList ++
          ("avx512-f avx512-bw avx512-cd avx512-dq avx512-vl".toList ++ [NUL]) ++
          ")\n".toList)) := by
  have c1 : (cpu_detect_version_level_v1 cpuid_all_set alist_fresh).2 = 132 := by decide
  have c2 : (cpu_detect_version_level_v2 cpuid_all_set alist_fresh).2 = 84 := by decide
  have c3 : (cpu_detect_version_level_v3 cpuid_all_set alist_fresh).2 = 139 := by decide
  have c4 : (cpu_detect_version_level_v4 cpuid_all_set alist_fresh).2 = 122 := by decide
  have t1 : names_text (matched_v1 cpuid_all_set) =
      "fpu cx8 sce cmov mmx fxsr sse sse2".toList ++ [NUL] := by decide
  have t2 : names_text (matched_v2 cpuid_all_set) =
      "cmpxchg16b popcnt sse3 sse4.1 sse4.2 ssse3".toList ++ [NUL] := by decide
  have t3 : names_text (matched_v3 cpuid_all_set) =
      "avx f16c fma movbe osxsave avx2 bmi1 bmi2 lzcnt".toList ++ [NUL] := by decide
  have t4 : names_text (matched_v4 cpuid_all_set) =
      "avx512-f avx512-bw avx512-cd avx512-dq avx512-vl".toList ++ [NUL] := by decide
  rw [print_levels_text cpuid_all_set alist_fresh (by decide) (by decide),
    if_pos c1, if_pos c2, if_pos c3, if_pos c4, t1, t2, t3, t4]

/-- C14: for an object that holds the characters `cs`, none of them `NUL`, and then
a terminator, `conv_to_lowercase` returns a new object that holds `tolower` of each
character of `cs`, in order, and a terminator; the string has the length of `cs`;
`tolower` adds 32 to an uppercase ASCII letter and leaves every other character
unchanged, so a string without uppercase letters is returned equal. -/
theorem conv_to_lowercase_spec (cs rest : List Char) (h : NUL ∉ cs) :
    conv_to_lowercase (cs ++ NUL :: rest) = cs.map tolower ++ [NUL] ∧
    cstring (conv_to_lowercase (cs ++ NUL :: rest)) = cs.map tolower ∧
    (cstring (conv_to_lowercase (cs ++ NUL :: rest))).length = cs.length ∧
    (∀ c : Char, 'A' ≤ c → c ≤ 'Z' → (tolower c).toNat = c.toNat + 32) ∧
    (∀ c : Char, ¬ ('A' ≤ c ∧ c ≤ 'Z') → tolower c = c) ∧
    ((∀ c ∈ cs, ¬ ('A' ≤ c ∧ c ≤ 'Z')) →
      conv_to_lowercase (cs ++ NUL :: rest) = cs ++ [NUL]) := by
  have e := conv_to_lowercase_eq cs rest h
  have hc : cstring (conv_to_lowercase (cs ++ NUL :: rest)) = cs.map tolower := by
    rw [e]; exact cstring_map_tolower cs [] h
  refine ⟨e, hc, by rw [hc, List.length_map], tolower_upper, ?_, ?_⟩
  · intro c hn
    rw [tolower, if_neg hn]
  · intro hall
    rw [e]
    congr 1
    conv_rhs => rw [← List.map_id cs]
    apply List.map_congr_left
    intro c hm
    rw [tolower, if_neg (hall c hm)]
    rfl

/-- C14, at the name `SSE4.1`, which becomes `sse4.1`. -/
theorem conv_to_lowercase_spec_witness :
    NUL ∉ "SSE4.1".toList ∧
    conv_to_lowercase (string_object "SSE4.1") = string_object "sse4.1" ∧
    conv_to_lowercase (string_object "sse4.1") = string_object "sse4.1" :=
  ⟨by decide, (conv_to_lowercase_spec "SSE4.1".toList [] (by decide)).1.trans (by decide),
    by decide⟩

/-- C15 as stated fails: with the arguments `-h --bogus`, which are neither no
arguments nor exactly `-h`, `main` writes the usage line and exits with status 0. -/
theorem main_help_with_extra_argument :
    main cpuid_all_set "x86v" ["x86v", "-h", "--bogus"] =
      some { status := 0,
             stdout := ("Just run the x86v command. " ++
               "Use the '-h' flag to show this output.\n").toList,
             stderr := [] } := by
  decide

/-- C15 as amended: `main` looks at the first argument only.  When the first
argument is not `-h`, it exits with status 1 and writes nothing to `stdout`; when
the first argument is `-h`, whatever follows, it writes the usage line and exits
with status 0; with no argument it writes what `cpu_print_version_levels` writes on
a freshly initialised list and exits with status 0. -/
theorem main_first_argument (cpuid : Cpuid) (progname argv0 a1 : String)
    (rest : List String) :
    (a1 ≠ "-h" →
      main cpuid progname (argv0 :: a1 :: rest) = some (errx_invalid_argument progname) ∧
      (errx_invalid_argument progname).status = 1 ∧
      (errx_invalid_argument progname).stdout = []) ∧
    (main cpuid progname (argv0 :: "-h" :: rest) = some (print_help progname) ∧
      (print_help progname).status = 0 ∧
      (print_help progname).stdout = ("Just run the " ++ progname ++
        " command. Use the '-h' flag to show this output.\n").toList) ∧
    (∃ out, (cpu_print_version_levels cpuid alist_fresh).2 = some out ∧
      main cpuid progname [argv0] = some { status := 0, stdout := out, stderr := [] }) := by
  refine ⟨?_, ?_, ?_⟩
  · intro hne
    refine ⟨?_, rfl, rfl⟩
    simp [main, hne]
  · refine ⟨?_, rfl, rfl⟩
    simp [main]
  · have hp := print_levels_text cpuid alist_fresh (by decide) (by decide)
    refine ⟨_, hp, ?_⟩
    have hm : main cpuid progname [argv0] =
        (cpu_print_version_levels cpuid alist_fresh).2.map
          (fun out => { status := 0, stdout := out, stderr := [] }) := by
      simp [main, alist_fresh]
    rw [hm, hp]
    rfl

/-- C15 as amended, at the arguments `--bogus -h`. -/
theorem main_first_argument_witness :
    "--bogus" ≠ "-h" ∧
    main cpuid_all_set "x86v" ["x86v", "--bogus", "-h"] =
      some (errx_invalid_argument "x86v") ∧
    (errx_invalid_argument "x86v").status = 1 ∧
    (errx_invalid_argument "x86v").stdout = [] :=
  ⟨by decide,
    (main_first_argument cpuid_all_set "x86v" "x86v" "--bogus" ["-h"]).1 (by decide)⟩

/-- C16: after `tiny_alist_do_init` and any sequence of fewer than `2 ^ 60 - 1`
calls to init, push and reset, a push ends (any bound of at least two passes
through `do_alloc` gives the same state) and appends: `idx` grows by one, slot
`[old idx]` holds the element, every slot below the old `idx` holds what it held,
`total_len` grows by one pointer size; and the slots `0 .. idx - 1` hold the
elements pushed since the last init or reset, in the order of the pushes. -/
theorem push_back_appends (ops : List alist_op) (e : String)
    (h : ops.length + 1 < 2 ^ 60) :
    (∀ n, do_alloc (n + 2) (run_ops ops) = do_alloc 2 (run_ops ops)) ∧
    (tiny_alist_do_push_back (run_ops ops) e).idx = (run_ops ops).idx + 1 ∧
    (tiny_alist_do_push_back (run_ops ops) e).p.get? (run_ops ops).idx = some (some e) ∧
    (∀ i, i < (run_ops ops).idx →
      (tiny_alist_do_push_back (run_ops ops) e).p.get? i = (run_ops ops).p.get? i) ∧
    (tiny_alist_do_push_back (run_ops ops) e).total_len =
      (run_ops ops).total_len + SIZEOF_PTR ∧
    (run_ops ops).elems = (live_elems ops).map some ∧
    (tiny_alist_do_push_back (run_ops ops) e).elems =
      (live_elems (ops ++ [alist_op.push e])).map some := by
  obtain ⟨w, i, el⟩ := run_ops_wf ops (by omega)
  obtain ⟨pw, pi, pe⟩ := tiny_alist_do_push_back_wf (run_ops ops) e w (by omega)
  have hlen : (run_ops ops).idx ≤ (run_ops ops).p.length := by
    obtain ⟨h1, _, _, h4, _, h6⟩ := w
    simp only [SIZEOF_PTR] at h1 h4 h6
    rw [h6]; omega
  have hget : ∀ j, j < (run_ops ops).idx + 1 →
      (tiny_alist_do_push_back (run_ops ops) e).p.get? j =
        ((run_ops ops).elems ++ [some e]).get? j := by
    intro j hj
    rw [← pe, tiny_alist.elems, pi, List.get?_eq_getElem?, List.get?_eq_getElem?,
      List.getElem?_take_of_lt hj]
  have helen : (run_ops ops).elems.length = (run_ops ops).idx := by
    simp [tiny_alist.elems, hlen]
  refine ⟨fun n => do_alloc_fuel n _, pi, ?_, ?_, ?_, el, ?_⟩
  · rw [hget _ (by omega), List.get?_eq_getElem?, List.getElem?_append_right (by omega),
      helen]
    simp
  · intro j hj
    rw [hget _ (by omega), List.get?_eq_getElem?, List.get?_eq_getElem?,
      List.getElem?_append_left (by omega), tiny_alist.elems, List.getElem?_take_of_lt hj]
  · obtain ⟨h1, _⟩ := w
    obtain ⟨q1, _⟩ := pw
    rw [q1, h1, pi]
    simp only [SIZEOF_PTR]
    omega
  · rw [pe, el]
    simp [live_elems, List.foldl_append]

/-- C16, at the calls push `a`, push `b`, reset, push `c`, followed by a push of
`d`: the list then holds `c`, `d`. -/
theorem push_back_appends_witness :
    [alist_op.push "a", alist_op.push "b", alist_op.reset, alist_op.push "c"].length + 1
      < 2 ^ 60 ∧
    (tiny_alist_do_push_back
      (run_ops [alist_op.push "a", alist_op.push "b", alist_op.reset, alist_op.push "c"])
      "d").elems = [some "c", some "d"] :=
  ⟨by decide,
    (push_back_appends
      [alist_op.push "a", alist_op.push "b", alist_op.reset, alist_op.push "c"] "d"
      (by decide)).2.2.2.2.2.2.trans (by decide)⟩

/-- C17: for every list state, after `tiny_alist_do_reset` the fields `idx` and
`total_len` are 0, so an iteration visits no element, while the block `p`, its
allocated size and the field `extra_len` are unchanged. -/
theorem reset_clears_keeps_capacity (a : tiny_alist) :
    (tiny_alist_do_reset a).idx = 0 ∧
    (tiny_alist_do_reset a).total_len = 0 ∧
    (tiny_alist_do_reset a).elems = [] ∧
    (tiny_alist_do_reset a).p = a.p ∧
    (tiny_alist_do_reset a).alloc = a.alloc ∧
    (tiny_alist_do_reset a).extra_len = a.extra_len := by
  simp [tiny_alist_do_reset, tiny_alist.elems]

/-- C18: after init, three pushes and a reset, the first push takes no realloc
branch but the second push calls `realloc`, although three elements were pushed
before the reset.  The same happens in `cpu_print_version_levels` with every bit
set: after the eight pushes of v1 and the six of v2, each followed by a reset, the
fourth push of v3 calls `realloc`. -/
theorem push_after_reset_reallocs :
    do_alloc_reallocs 2
      (run_ops [alist_op.push "a", alist_op.push "b", alist_op.push "c",
        alist_op.reset]) = false ∧
    do_alloc_reallocs 2
      (run_ops [alist_op.push "a", alist_op.push "b", alist_op.push "c",
        alist_op.reset, alist_op.push "d"]) = true ∧
    (run_ops [alist_op.push "a", alist_op.push "b", alist_op.push "c",
        alist_op.reset, alist_op.push "d"]).alloc = 32 ∧
    (run_ops [alist_op.push "a", alist_op.push "b", alist_op.push "c",
        alist_op.reset, alist_op.push "d"]).extra_len = 16 ∧
    do_alloc_reallocs 2
      (push_all
        (tiny_alist_do_reset
          (cpu_detect_version_level_v2 cpuid_all_set
            (tiny_alist_do_reset
              (cpu_detect_version_level_v1 cpuid_all_set alist_fresh).1)).1)
        ["AVX", "F16C", "FMA"]) = true := by
  decide

/-- C19: after `tiny_alist_do_init` and any sequence of fewer than `2 ^ 60 - 1`
calls to init, push and reset, `total_len` is `idx` times the pointer size and
`extra_len` is at most the allocated size; and in a push made next, the decrement
of `extra_len` does not wrap (`extra_len` is at least the pointer size when the
else branch is taken) and the store `p[idx]` lies inside the allocated block
(`total_len` plus the pointer size is at most the allocated size, and `idx` is a
slot of the block). -/
theorem list_invariant (ops : List alist_op) (h : ops.length + 1 < 2 ^ 60) :
    (run_ops ops).total_len = (run_ops ops).idx * SIZEOF_PTR ∧
    (run_ops ops).extra_len ≤ (run_ops ops).alloc ∧
    (¬ (run_ops ops).extra_len ≤ (run_ops ops).total_len →
      SIZEOF_PTR ≤ (run_ops ops).extra_len) ∧
    (do_alloc 2 (run_ops ops)).extra_len ≤ (do_alloc 2 (run_ops ops)).alloc ∧
    (do_alloc 2 (run_ops ops)).total_len + SIZEOF_PTR ≤ (do_alloc 2 (run_ops ops)).alloc ∧
    (do_alloc 2 (run_ops ops)).idx < (do_alloc 2 (run_ops ops)).p.length ∧
    (do_alloc 2 (run_ops ops)).p.length = (do_alloc 2 (run_ops ops)).alloc / SIZEOF_PTR := by
  obtain ⟨w, i, _⟩ := run_ops_wf ops (by omega)
  obtain ⟨b1, b2, b3, b4, b5, b6⟩ := do_alloc_bounds (run_ops ops) w (by omega)
  obtain ⟨pw, _, _⟩ := tiny_alist_do_push_back_wf (run_ops ops) "" w (by omega)
  have hlen : (do_alloc 2 (run_ops ops)).p.length =
      (do_alloc 2 (run_ops ops)).alloc / SIZEOF_PTR := by
    have := pw.2.2.2.2.2
    simpa [tiny_alist_do_push_back] using this
  obtain ⟨h1, _, h3, _⟩ := w
  exact ⟨by rw [h1, Nat.mul_comm], h3, b6, b4, b5, b3, hlen⟩

/-- C19, at the calls of the counterexample to C18. -/
theorem list_invariant_witness :
    [alist_op.push "a", alist_op.push "b", alist_op.push "c", alist_op.reset,
      alist_op.push "d"].length + 1 < 2 ^ 60 ∧
    (run_ops [alist_op.push "a", alist_op.push "b", alist_op.push "c", alist_op.reset,
      alist_op.push "d"]).total_len =
      (run_ops [alist_op.push "a", alist_op.push "b", alist_op.push "c", alist_op.reset,
        alist_op.push "d"]).idx * SIZEOF_PTR :=
  ⟨by decide,
    (list_invariant [alist_op.push "a", alist_op.push "b", alist_op.push "c",
      alist_op.reset, alist_op.push "d"] (by decide)).1⟩

/-- C20: for every register value and every bit index below 32, `cpu_has_feat`
returns 1 and `IsX86Feat::check` returns true exactly when
`(reg / 2 ^ bit) % 2 = 1`, and they return 0 and false otherwise; bit 31 is
included, the shifted value being reduced modulo `2 ^ 32`. -/
theorem has_feat_iff_bit (reg bit : Nat) (hb : bit < 32) :
    (cpu_has_feat reg bit = 1 ↔ reg / 2 ^ bit % 2 = 1) ∧
    (cpu_has_feat reg bit = 0 ↔ ¬ reg / 2 ^ bit % 2 = 1) ∧
    (IsX86Feat.check reg bit = true ↔ reg / 2 ^ bit % 2 = 1) ∧
    (IsX86Feat.check reg bit = false ↔ ¬ reg / 2 ^ bit % 2 = 1) := by
  have ht : reg.testBit bit = true ↔ reg / 2 ^ bit % 2 = 1 := by
    rw [Nat.testBit_to_div_mod]; simp
  have hc := IsX86Feat.check_eq_testBit reg bit hb
  have hf := cpu_has_feat_ne_zero reg bit hb
  have h01 : cpu_has_feat reg bit = 0 ∨ cpu_has_feat reg bit = 1 := by
    unfold cpu_has_feat; split <;> simp
  refine ⟨?_, ?_, ?_, ?_⟩
  · rw [← ht, ← hf]; omega
  · rw [← ht, ← hf]; omega
  · rw [hc, ht]
  · rw [hc, ← ht]; simp

/-- C20, at the register value `0x80000000` and bit 31. -/
theorem has_feat_iff_bit_witness :
    (31 < 32) ∧ cpu_has_feat 0x80000000 31 = 1 ∧ IsX86Feat.check 0x80000000 31 = true ∧
    cpu_has_feat 0x7fffffff 31 = 0 :=
  ⟨by decide, (has_feat_iff_bit 0x80000000 31 (by decide)).1.2 (by decide),
    (has_feat_iff_bit 0x80000000 31 (by decide)).2.2.1.2 (by decide), by decide⟩

end x86v

/-! ## Agreement of the two source files -/

/-- The test of `IsX86Feat::check` and the condition `cpu_has_feat(reg, bit)` of the
level functions decide alike. -/
theorem check_eq_cpu_has_feat (reg bit : Nat) (hb : bit < 32) :
    IsX86Feat.check reg bit = decide (x86v.cpu_has_feat reg bit ≠ 0) := by
  rw [IsX86Feat.check_eq_testBit reg bit hb]
  by_cases h : reg.testBit bit = true
  · have := (x86v.cpu_has_feat_ne_zero reg bit hb).2 h
    simp [h, this]
  · have hn : ¬ x86v.cpu_has_feat reg bit ≠ 0 :=
      fun hc => h ((x86v.cpu_has_feat_ne_zero reg bit hb).1 hc)
    simp only [Bool.not_eq_true] at h
    simp [h, hn]

/-- With the object `IsX86Feat` constructed on a processor, `has` answers each
feature that both files name as `cpu_has_feat` answers on the register of the same
leaf at the bit position of `x86v.c`. -/
theorem has_eq_cpu_has_feat (cpuid : Cpuid) :
    (IsX86Feat.has (IsX86Feat.new cpuid) cpuid Feature.FPU =
        some (decide (x86v.cpu_has_feat (cpuid 1).edx x86v.FPU ≠ 0)) ∧
     IsX86Feat.has (IsX86Feat.new cpuid) cpuid Feature.CX8 =
        some (decide (x86v.cpu_has_feat (cpuid 1).edx x86v.CX8 ≠ 0)) ∧
     IsX86Feat.has (IsX86Feat.new cpuid) cpuid Feature.CMOV =
        some (decide (x86v.cpu_has_feat (cpuid 1).edx x86v.CMOV ≠ 0)) ∧
     IsX86Feat.has (IsX86Feat.new cpuid) cpuid Feature.MMX =
        some (decide (x86v.cpu_has_feat (cpuid 1).edx x86v.MMX ≠ 0)) ∧
     IsX86Feat.has (IsX86Feat.new cpuid) cpuid Feature.FXSR =
        some (decide (x86v.cpu_has_feat (cpuid 1).edx x86v.FXSR ≠ 0)) ∧
     IsX86Feat.has (IsX86Feat.new cpuid) cpuid Feature.SSE =
        some (decide (x86v.cpu_has_feat (cpuid 1).edx x86v.SSE ≠ 0)) ∧
     IsX86Feat.has (IsX86Feat.new cpuid) cpuid Feature.SSE2 =
        some (decide (x86v.cpu_has_feat (cpuid 1).edx x86v.SSE2 ≠ 0))) ∧
    (IsX86Feat.has (IsX86Feat.new cpuid) cpuid Feature.CX16 =
        some (decide (x86v.cpu_has_feat (cpuid 1).ecx x86v.CMPXCHG16B ≠ 0)) ∧
     IsX86Feat.has (IsX86Feat.new cpuid) cpuid Feature.POPCNT =
        some (decide (x86v.cpu_has_feat (cpuid 1).ecx x86v.POPCNT ≠ 0)) ∧
     IsX86Feat.has (IsX86Feat.new cpuid) cpuid Feature.SSE3 =
        some (decide (x86v.cpu_has_feat (cpuid 1).ecx x86v.SSE3 ≠ 0)) ∧
     IsX86Feat.has (IsX86Feat.new cpuid) cpuid Feature.SSE41 =
        some (decide (x86v.cpu_has_feat (cpuid 1).ecx x86v.SSE4_1 ≠ 0)) ∧
     IsX86Feat.has (IsX86Feat.new cpuid) cpuid Feature.SSE42 =
        some (decide (x86v.cpu_has_feat (cpuid 1).ecx x86v.SSE4_2 ≠ 0)) ∧
     IsX86Feat.has (IsX86Feat.new cpuid) cpuid Feature.SSSE3 =
        some (decide (x86v.cpu_has_feat (cpuid 1).ecx x86v.SSSE3 ≠ 0))) ∧
    (IsX86Feat.has (IsX86Feat.new cpuid) cpuid Feature.AVX =
        some (decide (x86v.cpu_has_feat (cpuid 1).ecx x86v.AVX ≠ 0)) ∧
     IsX86Feat.has (IsX86Feat.new cpuid) cpuid Feature.F16C =
        some (decide (x86v.cpu_has_feat (cpuid 1).ecx x86v.F16C ≠ 0)) ∧
     IsX86Feat.has (IsX86Feat.new cpuid) cpuid Feature.FMA =
        some (decide (x86v.cpu_has_feat (cpuid 1).ecx x86v.FMA ≠ 0)) ∧
     IsX86Feat.has (IsX86Feat.new cpuid) cpuid Feature.MOVBE =
        some (decide (x86v.cpu_has_feat (cpuid 1).ecx x86v.MOVBE ≠ 0)) ∧
     IsX86Feat.has (IsX86Feat.new cpuid) cpuid Feature.OSXSAVE =
        some (decide (x86v.cpu_has_feat (cpuid 1).ecx x86v.OSXSAVE ≠ 0)) ∧
     IsX86Feat.has (IsX86Feat.new cpuid) cpuid Feature.AVX2 =
        some (decide (x86v.cpu_has_feat (cpuid 7).ebx x86v.AVX2 ≠ 0)) ∧
     IsX86Feat.has (IsX86Feat.new cpuid) cpuid Feature.BMI1 =
        some (decide (x86v.cpu_has_feat (cpuid 7).ebx x86v.BMI1 ≠ 0)) ∧
     IsX86Feat.has (IsX86Feat.new cpuid) cpuid Feature.BMI2 =
        some (decide (x86v.cpu_has_feat (cpuid 7).ebx x86v.BMI2 ≠ 0))) ∧
    (IsX86Feat.has (IsX86Feat.new cpuid) cpuid Feature.AVX512F =
        some (decide (x86v.cpu_has_feat (cpuid 7).ebx x86v.AVX512F ≠ 0)) ∧
     IsX86Feat.has (IsX86Feat.new cpuid) cpuid Feature.AVX512BW =
        some (decide (x86v.cpu_has_feat (cpuid 7).ebx x86v.AVX512BW ≠ 0)) ∧
     IsX86Feat.has (IsX86Feat.new cpuid) cpuid Feature.AVX512CD =
        some (decide (x86v.cpu_has_feat (cpuid 7).ebx x86v.AVX512CD ≠ 0)) ∧
     IsX86Feat.has (IsX86Feat.new cpuid) cpuid Feature.AVX512DQ =
        some (decide (x86v.cpu_has_feat (cpuid 7).ebx x86v.AVX512DQ ≠ 0)) ∧
     IsX86Feat.has (IsX86Feat.new cpuid) cpuid Feature.AVX512VL =
        some (decide (x86v.cpu_has_feat (cpuid 7).ebx x86v.AVX512VL ≠ 0))) := by
  have h : ∀ (reg bit : Nat), bit < 32 →
      some (IsX86Feat.check reg bit) = some (decide (x86v.cpu_has_feat reg bit ≠ 0)) :=
    fun reg bit hb => congrArg some (check_eq_cpu_has_feat reg bit hb)
  refine ⟨⟨?_, ?_, ?_, ?_, ?_, ?_, ?_⟩, ⟨?_, ?_, ?_, ?_, ?_, ?_⟩,
    ⟨?_, ?_, ?_, ?_, ?_, ?_, ?_, ?_⟩, ⟨?_, ?_, ?_, ?_, ?_⟩⟩
  · exact h (cpuid 1).edx 0 (by decide)
  · exact h (cpuid 1).edx 8 (by decide)
  · exact h (cpuid 1).edx 15 (by decide)
  · exact h (cpuid 1).edx 23 (by decide)
  · exact h (cpuid 1).edx 24 (by decide)
  · exact h (cpuid 1).edx 25 (by decide)
  · exact h (cpuid 1).edx 26 (by decide)
  · exact h (cpuid 1).ecx 13 (by decide)
  · exact h (cpuid 1).ecx 23 (by decide)
  · exact h (cpuid 1).ecx 0 (by decide)
  · exact h (cpuid 1).ecx 19 (by decide)
  · exact h (cpuid 1).ecx 20 (by decide)
  · exact h (cpuid 1).ecx 9 (by decide)
  · exact h (cpuid 1).ecx 28 (by decide)
  · exact h (cpuid 1).ecx 29 (by decide)
  · exact h (cpuid 1).ecx 12 (by decide)
  · exact h (cpuid 1).ecx 22 (by decide)
  · exact h (cpuid 1).ecx 27 (by decide)
  · exact h (cpuid 7).ebx 5 (by decide)
  · exact h (cpuid 7).ebx 3 (by decide)
  · exact h (cpuid 7).ebx 8 (by decide)
  · exact h (cpuid 7).ebx 16 (by decide)
  · exact h (cpuid 7).ebx 30 (by decide)
  · exact h (cpuid 7).ebx 28 (by decide)
  · exact h (cpuid 7).ebx 17 (by decide)
  · exact h (cpuid 7).ebx 31 (by decide)

/-- A name that one entry only of a table carries is among the names the filter of
the table keeps exactly when the filter keeps that entry. -/
theorem mem_matched_name {α : Type} (arr : List α) (nm : α → String) (P : α → Bool)
    (x : α) (hx : x ∈ arr) (hinj : ∀ y ∈ arr, nm y = nm x → y = x) :
    some (nm x) ∈ (arr.filter P).map (fun t => some (nm t)) ↔ P x = true := by
  simp only [List.mem_map, List.mem_filter, Option.some.injEq]
  constructor
  · rintro ⟨y, ⟨h1, h2⟩, h3⟩
    rw [← hinj y h1 h3]
    exact h2
  · intro h
    exact ⟨x, ⟨hx, h⟩, rfl⟩

/-- On an empty list, a level function of `x86v.c` pushes the name of a feature it
tests exactly when `cpu_has_feat` finds the feature's bit in the register the
function reads for it. -/
theorem level_pushes_iff (cpuid : Cpuid) (alist : x86v.tiny_alist) (hwf : alist.wf)
    (h0 : alist.idx = 0) :
    (∀ f ∈ x86v.cpu_feat_bits_v1,
      (some f.name ∈ (x86v.cpu_detect_version_level_v1 cpuid alist).1.elems ↔
        x86v.cpu_has_feat (cpuid 1).edx f.bit ≠ 0)) ∧
    (∀ f ∈ x86v.cpu_feat_bits_v2,
      (some f.name ∈ (x86v.cpu_detect_version_level_v2 cpuid alist).1.elems ↔
        x86v.cpu_has_feat (cpuid 1).ecx f.bit ≠ 0)) ∧
    (∀ t ∈ x86v.v3_tests cpuid,
      (some t.2.name ∈ (x86v.cpu_detect_version_level_v3 cpuid alist).1.elems ↔
        x86v.cpu_has_feat t.1 t.2.bit ≠ 0)) ∧
    (∀ f ∈ x86v.cpu_feat_bits_v4,
      (some f.name ∈ (x86v.cpu_detect_version_level_v4 cpuid alist).1.elems ↔
        x86v.cpu_has_feat (cpuid 7).ebx f.bit ≠ 0)) := by
  obtain ⟨e1, e2, e3, e4⟩ := x86v.level_elems cpuid alist hwf (by rw [h0]; decide)
  have hnil : alist.elems = [] := by simp [x86v.tiny_alist.elems, h0]
  rw [hnil, List.nil_append] at e1 e2 e3 e4
  refine ⟨?_, ?_, ?_, ?_⟩
  · intro f hf
    rw [e1, mem_matched_name x86v.cpu_feat_bits_v1 (fun f => f.name)
      (fun f => (cpuid 1).edx.testBit f.bit) f hf
      (by revert f; decide), x86v.cpu_has_feat_ne_zero _ _ (by revert f; decide)]
  · intro f hf
    rw [e2, mem_matched_name x86v.cpu_feat_bits_v2 (fun f => f.name)
      (fun f => (cpuid 1).ecx.testBit f.bit) f hf
      (by revert f; decide), x86v.cpu_has_feat_ne_zero _ _ (by revert f; decide)]
  · intro t ht
    rw [e3, mem_matched_name (x86v.v3_tests cpuid) (fun t => t.2.name)
      (fun t => t.1.testBit t.2.bit) t ht
      (by
        revert t
        simp [x86v.v3_tests]),
      x86v.cpu_has_feat_ne_zero _ _ (by
        revert t
        simp [x86v.v3_tests, x86v.AVX, x86v.F16C, x86v.FMA, x86v.MOVBE, x86v.OSXSAVE,
          x86v.AVX2, x86v.BMI1, x86v.BMI2, x86v.LZCNT])]
  · intro f hf
    rw [e4, mem_matched_name x86v.cpu_feat_bits_v4 (fun f => f.name)
      (fun f => (cpuid 7).ebx.testBit f.bit) f hf
      (by revert f; decide), x86v.cpu_has_feat_ne_zero _ _ (by revert f; decide)]

/-- C21: for every processor and every empty well-formed list, each feature that
both files name is paired here with the entry of `x86v.c` that a level function
tests: the entry is in the table of that level function (for v3, in its sequence
of tests, with the register read); `IsX86Feat::has`, on the object constructed on
the processor, answers the feature exactly as the level function run on the
processor decides to push the entry's name, which is its test of the feature; and
that answer is `cpu_has_feat` on the register of the same leaf at the entry's bit
position: leaf-1 EDX for v1, leaf-1 ECX for v2 and the first five of v3, leaf-7
EBX for the other three of v3 and for v4. -/
theorem header_agrees_with_levels (cpuid : Cpuid) (alist : x86v.tiny_alist)
    (hwf : alist.wf) (h0 : alist.idx = 0) :
    (∀ p ∈ [(Feature.FPU, x86v.cpu_feat_bits.mk x86v.FPU "fpu"),
        (Feature.CX8, x86v.cpu_feat_bits.mk x86v.CX8 "cx8"),
        (Feature.CMOV, x86v.cpu_feat_bits.mk x86v.CMOV "cmov"),
        (Feature.MMX, x86v.cpu_feat_bits.mk x86v.MMX "mmx"),
        (Feature.FXSR, x86v.cpu_feat_bits.mk x86v.FXSR "fxsr"),
        (Feature.SSE, x86v.cpu_feat_bits.mk x86v.SSE "sse"),
        (Feature.SSE2, x86v.cpu_feat_bits.mk x86v.SSE2 "sse2")],
      p.2 ∈ x86v.cpu_feat_bits_v1 ∧
      IsX86Feat.has (IsX86Feat.new cpuid) cpuid p.1 =
        some (decide
          (some p.2.name ∈ (x86v.cpu_detect_version_level_v1 cpuid alist).1.elems)) ∧
      IsX86Feat.has (IsX86Feat.new cpuid) cpuid p.1 =
        some (decide (x86v.cpu_has_feat (cpuid 1).edx p.2.bit ≠ 0))) ∧
    (∀ p ∈ [(Feature.CX16, x86v.cpu_feat_bits.mk x86v.CMPXCHG16B "cmpxchg16b"),
        (Feature.POPCNT, x86v.cpu_feat_bits.mk x86v.POPCNT "popcnt"),
        (Feature.SSE3, x86v.cpu_feat_bits.mk x86v.SSE3 "sse3"),
        (Feature.SSE41, x86v.cpu_feat_bits.mk x86v.SSE4_1 "sse4.1"),
        (Feature.SSE42, x86v.cpu_feat_bits.mk x86v.SSE4_2 "sse4.2"),
        (Feature.SSSE3, x86v.cpu_feat_bits.mk x86v.SSSE3 "ssse3")],
      p.2 ∈ x86v.cpu_feat_bits_v2 ∧
      IsX86Feat.has (IsX86Feat.new cpuid) cpuid p.1 =
        some (decide
          (some p.2.name ∈ (x86v.cpu_detect_version_level_v2 cpuid alist).1.elems)) ∧
      IsX86Feat.has (IsX86Feat.new cpuid) cpuid p.1 =
        some (decide (x86v.cpu_has_feat (cpuid 1).ecx p.2.bit ≠ 0))) ∧
    (∀ p ∈ [(Feature.AVX, (cpuid 1).ecx, x86v.cpu_feat_bits.mk x86v.AVX "AVX"),
        (Feature.F16C, (cpuid 1).ecx, x86v.cpu_feat_bits.mk x86v.F16C "F16C"),
        (Feature.FMA, (cpuid 1).ecx, x86v.cpu_feat_bits.mk x86v.FMA "FMA"),
        (Feature.MOVBE, (cpuid 1).ecx, x86v.cpu_feat_bits.mk x86v.MOVBE "MOVBE"),
        (Feature.OSXSAVE, (cpuid 1).ecx, x86v.cpu_feat_bits.mk x86v.OSXSAVE "OSXSAVE"),
        (Feature.AVX2, (cpuid 7).ebx, x86v.cpu_feat_bits.mk x86v.AVX2 "AVX2"),
        (Feature.BMI1, (cpuid 7).ebx, x86v.cpu_feat_bits.mk x86v.BMI1 "BMI1"),
        (Feature.BMI2, (cpuid 7).ebx, x86v.cpu_feat_bits.mk x86v.BMI2 "BMI2")],
      p.2 ∈ x86v.v3_tests cpuid ∧
      IsX86Feat.has (IsX86Feat.new cpuid) cpuid p.1 =
        some (decide
          (some p.2.2.name ∈ (x86v.cpu_detect_version_level_v3 cpuid alist).1.elems)) ∧
      IsX86Feat.has (IsX86Feat.new cpuid) cpuid p.1 =
        some (decide (x86v.cpu_has_feat p.2.1 p.2.2.bit ≠ 0))) ∧
    (∀ p ∈ [(Feature.AVX512F, x86v.cpu_feat_bits.mk x86v.AVX512F "avx512-f"),
        (Feature.AVX512BW, x86v.cpu_feat_bits.mk x86v.AVX512BW "avx512-bw"),
        (Feature.AVX512CD, x86v.cpu_feat_bits.mk x86v.AVX512CD "avx512-cd"),
        (Feature.AVX512DQ, x86v.cpu_feat_bits.mk x86v.AVX512DQ "avx512-dq"),
        (Feature.AVX512VL, x86v.cpu_feat_bits.mk x86v.AVX512VL "avx512-vl")],
      p.2 ∈ x86v.cpu_feat_bits_v4 ∧
      IsX86Feat.has (IsX86Feat.new cpuid) cpuid p.1 =
        some (decide
          (some p.2.name ∈ (x86v.cpu_detect_version_level_v4 cpuid alist).1.elems)) ∧
      IsX86Feat.has (IsX86Feat.new cpuid) cpuid p.1 =
        some (decide (x86v.cpu_has_feat (cpuid 7).ebx p.2.bit ≠ 0))) := by
  obtain ⟨l1, l2, l3, l4⟩ := level_pushes_iff cpuid alist hwf h0
  obtain ⟨b1, b2, b3, b4⟩ := has_eq_cpu_has_feat cpuid
  have key : ∀ (t : Nat) (q r : Prop) [Decidable q] [Decidable r], (q ↔ r) →
      IsX86Feat.has (IsX86Feat.new cpuid) cpuid t = some (decide r) →
      IsX86Feat.has (IsX86Feat.new cpuid) cpuid t = some (decide q) ∧
        IsX86Feat.has (IsX86Feat.new cpuid) cpuid t = some (decide r) := by
    intro t q r _ _ hqr h
    refine ⟨?_, h⟩
    rw [h, decide_eq_decide.2 hqr]
  refine ⟨?_, ?_, ?_, ?_⟩
  · obtain ⟨c1, c2, c3, c4, c5, c6, c7⟩ := b1
    intro p hp
    simp only [List.mem_cons, List.mem_singleton, List.not_mem_nil, or_false] at hp
    rcases hp with rfl | rfl | rfl | rfl | rfl | rfl | rfl
    · exact ⟨by decide, key _ _ _ (l1 _ (by decide)) c1⟩
    · exact ⟨by decide, key _ _ _ (l1 _ (by decide)) c2⟩
    · exact ⟨by decide, key _ _ _ (l1 _ (by decide)) c3⟩
    · exact ⟨by decide, key _ _ _ (l1 _ (by decide)) c4⟩
    · exact ⟨by decide, key _ _ _ (l1 _ (by decide)) c5⟩
    · exact ⟨by decide, key _ _ _ (l1 _ (by decide)) c6⟩
    · exact ⟨by decide, key _ _ _ (l1 _ (by decide)) c7⟩
  · obtain ⟨c1, c2, c3, c4, c5, c6⟩ := b2
    intro p hp
    simp only [List.mem_cons, List.mem_singleton, List.not_mem_nil, or_false] at hp
    rcases hp with rfl | rfl | rfl | rfl | rfl | rfl
    · exact ⟨by decide, key _ _ _ (l2 _ (by decide)) c1⟩
    · exact ⟨by decide, key _ _ _ (l2 _ (by decide)) c2⟩
    · exact ⟨by decide, key _ _ _ (l2 _ (by decide)) c3⟩
    · exact ⟨by decide, key _ _ _ (l2 _ (by decide)) c4⟩
    · exact ⟨by decide, key _ _ _ (l2 _ (by decide)) c5⟩
    · exact ⟨by decide, key _ _ _ (l2 _ (by decide)) c6⟩
  · obtain ⟨c1, c2, c3, c4, c5, c6, c7, c8⟩ := b3
    intro p hp
    simp only [List.mem_cons, List.mem_singleton, List.not_mem_nil, or_false] at hp
    rcases hp with rfl | rfl | rfl | rfl | rfl | rfl | rfl | rfl
    · have m : ((cpuid 1).ecx, x86v.cpu_feat_bits.mk x86v.AVX "AVX") ∈
          x86v.v3_tests cpuid := List.Mem.head _
      exact ⟨m, key _ _ _ (l3 _ m) c1⟩
    · have m : ((cpuid 1).ecx, x86v.cpu_feat_bits.mk x86v.F16C "F16C") ∈
          x86v.v3_tests cpuid := List.Mem.tail _ (List.Mem.head _)
      exact ⟨m, key _ _ _ (l3 _ m) c2⟩
    · have m : ((cpuid 1).ecx, x86v.cpu_feat_bits.mk x86v.FMA "FMA") ∈
          x86v.v3_tests cpuid := List.Mem.tail _ (List.Mem.tail _ (List.Mem.head _))
      exact ⟨m, key _ _ _ (l3 _ m) c3⟩
    · have m : ((cpuid 1).ecx, x86v.cpu_feat_bits.mk x86v.MOVBE "MOVBE") ∈
          x86v.v3_tests cpuid :=
        List.Mem.tail _ (List.Mem.tail _ (List.Mem.tail _ (List.Mem.head _)))
      exact ⟨m, key _ _ _ (l3 _ m) c4⟩
    · have m : ((cpuid 1).ecx, x86v.cpu_feat_bits.mk x86v.OSXSAVE "OSXSAVE") ∈
          x86v.v3_tests cpuid :=
        List.Mem.tail _ (List.Mem.tail _ (List.Mem.tail _ (List.Mem.tail _
          (List.Mem.head _))))
      exact ⟨m, key _ _ _ (l3 _ m) c5⟩
    · have m : ((cpuid 7).ebx, x86v.cpu_feat_bits.mk x86v.AVX2 "AVX2") ∈
          x86v.v3_tests cpuid :=
        List.Mem.tail _ (List.Mem.tail _ (List.Mem.tail _ (List.Mem.tail _
          (List.Mem.tail _ (List.Mem.head _)))))
      exact ⟨m, key _ _ _ (l3 _ m) c6⟩
    · have m : ((cpuid 7).ebx, x86v.cpu_feat_bits.mk x86v.BMI1 "BMI1") ∈
          x86v.v3_tests cpuid :=
        List.Mem.tail _ (List.Mem.tail _ (List.Mem.tail _ (List.Mem.tail _
          (List.Mem.tail _ (List.Mem.tail _ (List.Mem.head _))))))
      exact ⟨m, key _ _ _ (l3 _ m) c7⟩
    · have m : ((cpuid 7).ebx, x86v.cpu_feat_bits.mk x86v.BMI2 "BMI2") ∈
          x86v.v3_tests cpuid :=
        List.Mem.tail _ (List.Mem.tail _ (List.Mem.tail _ (List.Mem.tail _
          (List.Mem.tail _ (List.Mem.tail _ (List.Mem.tail _ (List.Mem.head _)))))))
      exact ⟨m, key _ _ _ (l3 _ m) c8⟩
  · obtain ⟨c1, c2, c3, c4, c5⟩ := b4
    intro p hp
    simp only [List.mem_cons, List.mem_singleton, List.not_mem_nil, or_false] at hp
    rcases hp with rfl | rfl | rfl | rfl | rfl
    · exact ⟨by decide, key _ _ _ (l4 _ (by decide)) c1⟩
    · exact ⟨by decide, key _ _ _ (l4 _ (by decide)) c2⟩
    · exact ⟨by decide, key _ _ _ (l4 _ (by decide)) c3⟩
    · exact ⟨by decide, key _ _ _ (l4 _ (by decide)) c4⟩
    · exact ⟨by decide, key _ _ _ (l4 _ (by decide)) c5⟩

/-- C21, at the processor with every bit set and the freshly initialised list:
`has` answers FPU as `cpu_detect_version_level_v1` decides to push `"fpu"`, and
AVX512VL as `cpu_detect_version_level_v4` decides to push `"avx512-vl"`. -/
theorem header_agrees_with_levels_witness :
    x86v.alist_fresh.wf ∧ x86v.alist_fresh.idx = 0 ∧
    IsX86Feat.has (IsX86Feat.new x86v.cpuid_all_set) x86v.cpuid_all_set Feature.FPU =
      some (decide (some "fpu" ∈
        (x86v.cpu_detect_version_level_v1 x86v.cpuid_all_set x86v.alist_fresh).1.elems)) ∧
    IsX86Feat.has (IsX86Feat.new x86v.cpuid_all_set) x86v.cpuid_all_set
        Feature.AVX512VL =
      some (decide (some "avx512-vl" ∈
        (x86v.cpu_detect_version_level_v4 x86v.cpuid_all_set x86v.alist_fresh).1.elems)) := by
  have hwf : x86v.alist_fresh.wf := by decide
  have h0 : x86v.alist_fresh.idx = 0 := by decide
  obtain ⟨h1, _, _, h4⟩ :=
    header_agrees_with_levels x86v.cpuid_all_set x86v.alist_fresh hwf h0
  have a1 := (h1 _ (List.mem_cons_self _ _)).2.1
  have a4 := (h4 _ (List.mem_cons_of_mem _ (List.mem_cons_of_mem _
    (List.mem_cons_of_mem _ (List.mem_cons_of_mem _ (List.mem_cons_self _ _)))))).2.1
  exact ⟨hwf, h0, a1, a4⟩
